import Mathlib

/-!
# eplatform: a shallow embedding of `src/eplatform/_eplatform.c`

The extension module forwards window, OpenGL-context, clipboard and event-queue
requests to the native multimedia library (SDL3).  Each C function is embedded
as a Lean function over

* `PyObj`, the Python objects that cross the boundary;
* an *environment* structure whose fields are the native and runtime calls the
  function makes, each a transition on an arbitrary state `σ` (so that a
  statement quantified over the environment speaks about every behaviour of
  the native library);
* a `World`, the environment state together with the log of calls made so far.

`goto error` is an early return with a raised exception; `while (true)` and the
retry through the `error:` label are recursive functions on a fuel argument.
-/

namespace EPlatform

/-! ## C integers -/

/-- Smallest value of a C `int` (32 bits). -/
def INT_MIN : Int := -2147483648

/-- Largest value of a C `int` (32 bits). -/
def INT_MAX : Int := 2147483647

/-- Smallest value of a C `long` (LP64). -/
def LONG_MIN : Int := -9223372036854775808

/-- Largest value of a C `long` (LP64). -/
def LONG_MAX : Int := 9223372036854775807

/-- Conversion of an integer value to a C `int` / `Sint32`: the low 32 bits,
read in two's complement. -/
def toCInt (n : Int) : Int := (n + 2147483648) % 4294967296 - 2147483648

/-- Conversion of an integer value to `Uint32`. -/
def toUint32 (n : Int) : Nat := (n % 4294967296).toNat

/-- Conversion of an integer value to `Uint8`. -/
def toUint8 (n : Int) : Nat := (n % 256).toNat

/-- The bytes `sizeof(int)` occupies. -/
def sizeof_int : Nat := 4

/-! ## Python objects and results -/

/-- Exception types that reach the caller of the module. -/
inductive PyExc where
  | TypeError
  | ValueError
  | OverflowError
  | RuntimeError
  | UnicodeEncodeError
  | UnicodeDecodeError
  | MemoryError
  | Other (tag : Nat)
  deriving DecidableEq, Repr

/-- Python objects exchanged with the module.  A `str` is its sequence of code
points; a capsule is its name and the native pointer it wraps. -/
inductive PyObj where
  | None
  | int (n : Int)
  | bool (b : Bool)
  | str (codepoints : List Nat)
  | IVector2 (x y : Int)
  | capsule (name : String) (pointer : Nat)
  | tuple (items : List PyObj)
  deriving Repr

/-- What a call of a module function produces: a returned object, a raised
exception (the C function returns 0 with the error indicator set), or behaviour
the C language leaves undefined. -/
inductive PyResult where
  | ok (value : PyObj)
  | raised (exc : PyExc)
  | undefined
  deriving Repr

/-- Model of `PyCapsule_GetPointer(obj, name)`: the wrapped pointer when `obj` is
a capsule of that name, otherwise NULL (0) with an exception set. -/
def PyCapsule_GetPointer (obj : PyObj) (name : String) : Nat × Option PyExc :=
  match obj with
  | PyObj.capsule n p => if n = name then (p, none) else (0, some PyExc.ValueError)
  | _ => (0, some PyExc.ValueError)

/-- Model of `PyLong_AsLong(obj)`: the value of an `int` (or `bool`) that fits a C
`long`; otherwise -1 with an exception set. -/
def PyLong_AsLong (obj : PyObj) : Int × Option PyExc :=
  match obj with
  | PyObj.int n =>
    if LONG_MIN ≤ n ∧ n ≤ LONG_MAX then (n, none) else (-1, some PyExc.OverflowError)
  | PyObj.bool b => (if b then 1 else 0, none)
  | _ => (-1, some PyExc.TypeError)

/-! ## Strings: UTF-8 and C strings -/

/-- UTF-8 encoding of one code point; `none` for a surrogate or a value past
U+10FFFF, which the runtime refuses to encode. -/
def utf8_encode_char (c : Nat) : Option (List Nat) :=
  if c < 0x80 then some [c]
  else if c < 0x800 then some [0xC0 + c / 64, 0x80 + c % 64]
  else if c < 0x10000 then
    if 0xD800 ≤ c ∧ c < 0xE000 then none
    else some [0xE0 + c / 4096, 0x80 + c / 64 % 64, 0x80 + c % 64]
  else if c < 0x110000 then
    some [0xF0 + c / 262144, 0x80 + c / 4096 % 64, 0x80 + c / 64 % 64, 0x80 + c % 64]
  else none

/-- UTF-8 encoding of a sequence of code points. -/
def utf8_encode : List Nat → Option (List Nat)
  | [] => some []
  | c :: cs =>
    match utf8_encode_char c, utf8_encode cs with
    | some b, some bs => some (b ++ bs)
    | _, _ => none

/-- A UTF-8 continuation byte, 0x80 to 0xBF. -/
def utf8_is_cont (b : Nat) : Prop := 0x80 ≤ b ∧ b < 0xC0

instance (b : Nat) : Decidable (utf8_is_cont b) := by
  unfold utf8_is_cont
  infer_instance

/-- Strict UTF-8 decoding: `none` on a stray or missing continuation byte, an
overlong form, a surrogate or a value past U+10FFFF. -/
def utf8_decode : List Nat → Option (List Nat)
  | [] => some []
  | b0 :: rest =>
    if b0 < 0x80 then (utf8_decode rest).map (fun cs => b0 :: cs)
    else if b0 < 0xC0 then none
    else if b0 < 0xE0 then
      match rest with
      | b1 :: rest1 =>
        if utf8_is_cont b1 ∧ 0x80 ≤ (b0 - 0xC0) * 64 + (b1 - 0x80) then
          (utf8_decode rest1).map (fun cs => ((b0 - 0xC0) * 64 + (b1 - 0x80)) :: cs)
        else none
      | [] => none
    else if b0 < 0xF0 then
      match rest with
      | b1 :: b2 :: rest2 =>
        if utf8_is_cont b1 ∧ utf8_is_cont b2 ∧
            0x800 ≤ (b0 - 0xE0) * 4096 + (b1 - 0x80) * 64 + (b2 - 0x80) ∧
            ¬ (0xD800 ≤ (b0 - 0xE0) * 4096 + (b1 - 0x80) * 64 + (b2 - 0x80) ∧
               (b0 - 0xE0) * 4096 + (b1 - 0x80) * 64 + (b2 - 0x80) < 0xE000) then
          (utf8_decode rest2).map
            (fun cs => ((b0 - 0xE0) * 4096 + (b1 - 0x80) * 64 + (b2 - 0x80)) :: cs)
        else none
      | _ => none
    else if b0 < 0xF8 then
      match rest with
      | b1 :: b2 :: b3 :: rest3 =>
        if utf8_is_cont b1 ∧ utf8_is_cont b2 ∧ utf8_is_cont b3 ∧
            0x10000 ≤ (b0 - 0xF0) * 262144 + (b1 - 0x80) * 4096 + (b2 - 0x80) * 64 + (b3 - 0x80) ∧
            (b0 - 0xF0) * 262144 + (b1 - 0x80) * 4096 + (b2 - 0x80) * 64 + (b3 - 0x80)
              < 0x110000 then
          (utf8_decode rest3).map
            (fun cs =>
              ((b0 - 0xF0) * 262144 + (b1 - 0x80) * 4096 + (b2 - 0x80) * 64 + (b3 - 0x80)) :: cs)
        else none
      | _ => none
    else none

/-- The C string a reader of a NUL-terminated buffer sees: the bytes before the
first zero byte. -/
def cstring (buffer : List Nat) : List Nat := buffer.takeWhile (fun b => b ≠ 0)

/-- Model of `PyUnicode_AsUTF8AndSize(obj, &size)` (and of `PyUnicode_AsUTF8`):
the UTF-8 buffer of a `str`, NUL-terminated by the runtime; NULL with an
exception set otherwise. -/
def PyUnicode_AsUTF8AndSize (obj : PyObj) : Option (List Nat) × Option PyExc :=
  match obj with
  | PyObj.str s =>
    match utf8_encode s with
    | some buffer => (some buffer, none)
    | none => (none, some PyExc.UnicodeEncodeError)
  | _ => (none, some PyExc.TypeError)

/-- Model of `PyUnicode_FromString(str)`: the `str` decoded from a C string. -/
def PyUnicode_FromString (str : List Nat) : PyResult :=
  match utf8_decode str with
  | some s => PyResult.ok (PyObj.str s)
  | none => PyResult.raised PyExc.UnicodeDecodeError

/-! ## Single-precision floats -/

/-- Value of a C `float`: a finite `mant * 2 ^ exp`, an infinity or a NaN. -/
inductive F32 where
  | finite (mant : Int) (exp : Int)
  | inf (negative : Bool)
  | nan
  deriving DecidableEq, Repr

/-- How many low bits a natural number has beyond a 24-bit significand. -/
def f32_excess_bits : Nat → Nat → Nat
  | 0, _ => 0
  | fuel + 1, m => if m < 16777216 then 0 else f32_excess_bits fuel (m / 2) + 1

/-- Rounding of a natural number below 2^64 to 24 significant bits, to nearest,
ties to even. -/
def f32_round_nat (m : Nat) : Nat :=
  let s := f32_excess_bits 64 m
  let q := m / 2 ^ s
  let r := m % 2 ^ s
  if 2 ^ s < 2 * r ∨ (2 * r = 2 ^ s ∧ q % 2 = 1) then (q + 1) * 2 ^ s else q * 2 ^ s

/-- The conversion `(float)n` of a C `long`. -/
def f32_of_long (n : Int) : F32 := F32.finite (n.sign * (f32_round_nat n.natAbs : Int)) 0

/-- Integral part of a float, toward zero; `none` for an infinity or a NaN. -/
def F32.trunc : F32 → Option Int
  | F32.finite mant exp =>
    some (if 0 ≤ exp then mant * 2 ^ exp.toNat else Int.tdiv mant (2 ^ (-exp).toNat))
  | F32.inf _ => none
  | F32.nan => none

/-- The conversion `(int)f` of a C `float`: its integral part when that is a
value of `int`, undefined (`none`) otherwise. -/
def f32_to_int (f : F32) : Option Int :=
  match f.trunc with
  | some t => if INT_MIN ≤ t ∧ t ≤ INT_MAX then some t else none
  | none => none

/-! ## Native records -/

/-- The attributes `SDL_GL_SetAttribute` is called with. -/
inductive SDL_GLAttr where
  | SDL_GL_CONTEXT_MAJOR_VERSION
  | SDL_GL_CONTEXT_MINOR_VERSION
  | SDL_GL_CONTEXT_PROFILE_MASK
  deriving DecidableEq, Repr

/-- Value of `SDL_GL_CONTEXT_PROFILE_CORE` in the SDL3 headers. -/
def SDL_GL_CONTEXT_PROFILE_CORE : Int := 1

/-- Value of `SDL_EVENT_WINDOW_RESIZED` in the SDL3 headers. -/
def SDL_EVENT_WINDOW_RESIZED : Nat := 0x206

/-- Value of `SDL_EVENT_KEY_DOWN` in the SDL3 headers. -/
def SDL_EVENT_KEY_DOWN : Nat := 0x300

/-- Value of `SDL_EVENT_KEY_UP` in the SDL3 headers. -/
def SDL_EVENT_KEY_UP : Nat := 0x301

/-- Value of `SDL_EVENT_TEXT_INPUT` in the SDL3 headers. -/
def SDL_EVENT_TEXT_INPUT : Nat := 0x303

/-- Value of `SDL_EVENT_MOUSE_MOTION` in the SDL3 headers. -/
def SDL_EVENT_MOUSE_MOTION : Nat := 0x400

/-- Value of `SDL_EVENT_MOUSE_BUTTON_DOWN` in the SDL3 headers. -/
def SDL_EVENT_MOUSE_BUTTON_DOWN : Nat := 0x401

/-- Value of `SDL_EVENT_MOUSE_BUTTON_UP` in the SDL3 headers. -/
def SDL_EVENT_MOUSE_BUTTON_UP : Nat := 0x402

/-- Value of `SDL_EVENT_MOUSE_WHEEL` in the SDL3 headers. -/
def SDL_EVENT_MOUSE_WHEEL : Nat := 0x403

/-- Value of `SDL_MOUSEWHEEL_NORMAL` in the SDL3 headers. -/
def SDL_MOUSEWHEEL_NORMAL : Nat := 0

/-- Value of `SDL_MOUSEWHEEL_FLIPPED` in the SDL3 headers. -/
def SDL_MOUSEWHEEL_FLIPPED : Nat := 1

/-- The members of the `SDL_Event` union that the module reads or writes, side
by side: `type` is shared, the other fields are those of `motion`, `wheel`,
`button`, `key`, `text` and `window`.  The module only reads the member that
belongs to `type`, so the overlap of the members in memory is not modelled.
`text_text` is a C string pointer: NULL or the bytes before the terminator. -/
structure SDL_Event where
  type : Nat
  motion_x : F32
  motion_y : F32
  motion_xrel : F32
  motion_yrel : F32
  wheel_direction : Nat
  wheel_x : F32
  wheel_y : F32
  button_button : Nat
  button_down : Bool
  key_scancode : Int
  key_down : Bool
  key_repeat : Bool
  text_text : Option (List Nat)
  window_data1 : Int
  window_data2 : Int
  deriving DecidableEq, Repr

/-- Calls on the native library and on the runtime, as recorded in the log. -/
inductive Call where
  | SDL_GL_SetSwapInterval (interval : Int)
  | SDL_GL_SwapWindow (window : Nat)
  | SDL_GL_SetAttribute (attr : SDL_GLAttr) (value : Int)
  | SDL_GL_CreateContext (window : Nat)
  | SDL_GL_DestroyContext (context : Nat)
  | PyCapsule_New (pointer : Nat) (name : String)
  | gl_versions_read (index : Nat)
  | SDL_SetClipboardText (text : List Nat)
  | SDL_GetClipboardText
  | SDL_HasClipboardText
  | SDL_free
  | SDL_PushEvent (event : SDL_Event)
  | SDL_PollEvent
  | EMathApi_Get
  | EMathApi_Release
  | IVector2_Create (x y : Int)
  | IVector2_GetValuePointer
  | SDL_ShowWindow (window : Nat)
  | SDL_HideWindow (window : Nat)
  | SDL_SetWindowPosition (window : Nat) (x y : Int)
  | SDL_SetWindowSize (window : Nat) (w h : Int)
  | SDL_StopTextInput (window : Nat)
  | SDL_ShowCursor
  | SDL_HideCursor
  deriving DecidableEq, Repr

/-- The index of a logged read of `gl_versions`. -/
def Call.readIndex (c : Call) : Option Nat :=
  match c with
  | Call.gl_versions_read i => some i
  | _ => none

/-- Environment state and the calls made so far, oldest first. -/
structure World (σ : Type) where
  st : σ
  log : List Call

/-! ## OpenGL: swap interval and context creation -/

/-- The native OpenGL calls and the capsule constructor, as transitions on the
environment state. A context or capsule result of 0 / `false` is failure. -/
structure GLEnv (σ : Type) where
  SDL_GL_SetSwapInterval : σ → Int → Bool × σ
  SDL_GL_SwapWindow : σ → Nat → Bool × σ
  SDL_GL_SetAttribute : σ → SDL_GLAttr → Int → Bool × σ
  SDL_GL_CreateContext : σ → Nat → Nat × σ
  SDL_GL_DestroyContext : σ → Nat → Bool × σ
  PyCapsule_New : σ → Nat → String → Bool × σ

variable {σ : Type}

/-- Call `SDL_GL_SetSwapInterval` and log it. -/
def GLEnv.setSwapInterval (E : GLEnv σ) (w : World σ) (interval : Int) : Bool × World σ :=
  ((E.SDL_GL_SetSwapInterval w.st interval).1,
   ⟨(E.SDL_GL_SetSwapInterval w.st interval).2, w.log ++ [Call.SDL_GL_SetSwapInterval interval]⟩)

/-- Call `SDL_GL_SwapWindow` and log it. -/
def GLEnv.swapWindow (E : GLEnv σ) (w : World σ) (window : Nat) : Bool × World σ :=
  ((E.SDL_GL_SwapWindow w.st window).1,
   ⟨(E.SDL_GL_SwapWindow w.st window).2, w.log ++ [Call.SDL_GL_SwapWindow window]⟩)

/-- Call `SDL_GL_SetAttribute` and log it. -/
def GLEnv.setAttribute (E : GLEnv σ) (w : World σ) (attr : SDL_GLAttr) (value : Int) :
    Bool × World σ :=
  ((E.SDL_GL_SetAttribute w.st attr value).1,
   ⟨(E.SDL_GL_SetAttribute w.st attr value).2, w.log ++ [Call.SDL_GL_SetAttribute attr value]⟩)

/-- Call `SDL_GL_CreateContext` and log it. -/
def GLEnv.createContext (E : GLEnv σ) (w : World σ) (window : Nat) : Nat × World σ :=
  ((E.SDL_GL_CreateContext w.st window).1,
   ⟨(E.SDL_GL_CreateContext w.st window).2, w.log ++ [Call.SDL_GL_CreateContext window]⟩)

/-- Call `SDL_GL_DestroyContext` and log it. -/
def GLEnv.destroyContext (E : GLEnv σ) (w : World σ) (context : Nat) : Bool × World σ :=
  ((E.SDL_GL_DestroyContext w.st context).1,
   ⟨(E.SDL_GL_DestroyContext w.st context).2, w.log ++ [Call.SDL_GL_DestroyContext context]⟩)

/-- Call `PyCapsule_New` and log it. -/
def GLEnv.capsuleNew (E : GLEnv σ) (w : World σ) (pointer : Nat) (name : String) :
    Bool × World σ :=
  ((E.PyCapsule_New w.st pointer name).1,
   ⟨(E.PyCapsule_New w.st pointer name).2, w.log ++ [Call.PyCapsule_New pointer name]⟩)

/-- How the `while (true)` loop of `swap_sdl_window` is left. -/
inductive SwapExit where
  | broke
  | returned_none
  deriving DecidableEq, Repr

/-- The `while (true)` loop of `swap_sdl_window`; one unit of fuel per iteration,
`none` when the fuel runs out. -/
def swap_loop (E : GLEnv σ) : Nat → Int → World σ → Option (SwapExit × World σ)
  | 0, _, _ => none
  | fuel + 1, sync, w =>
    if (E.setSwapInterval w (toCInt sync)).1 then
      some (SwapExit.broke, (E.setSwapInterval w (toCInt sync)).2)
    else if sync = -1 then
      swap_loop E fuel 1 (E.setSwapInterval w (toCInt sync)).2
    else
      some (SwapExit.returned_none, (E.setSwapInterval w (toCInt sync)).2)

/-- Embedding of `swap_sdl_window(module, args, nargs)`. -/
def swap_sdl_window (E : GLEnv σ) (fuel : Nat) (w : World σ) (args : List PyObj) :
    Option (PyResult × World σ) :=
  if 2 ≠ args.length then some (PyResult.raised PyExc.TypeError, w)
  else
    let sdl_window := PyCapsule_GetPointer (args.getD 0 PyObj.None) "_eplatform.SDL_Window"
    if sdl_window.1 = 0 then some (PyResult.raised (sdl_window.2.getD PyExc.ValueError), w)
    else
      let sync := PyLong_AsLong (args.getD 1 PyObj.None)
      if sync.1 = -1 ∧ sync.2.isSome then
        some (PyResult.raised (sync.2.getD PyExc.TypeError), w)
      else
        match swap_loop E fuel sync.1 w with
        | none => none
        | some (SwapExit.returned_none, w1) => some (PyResult.ok PyObj.None, w1)
        | some (SwapExit.broke, w1) =>
          some (PyResult.ok PyObj.None, (E.swapWindow w1 sdl_window.1).2)

/-- The table `gl_versions` of `create_sdl_gl_context`: (major, minor) pairs. -/
def gl_versions : List (Int × Int) :=
  [(4, 6), (4, 5), (4, 4), (4, 3), (4, 2), (4, 1), (4, 0), (3, 3), (3, 2), (3, 1)]

/-- The bytes `sizeof(gl_versions)` occupies: two `int`s per entry. -/
def sizeof_gl_versions : Nat := gl_versions.length * 2 * sizeof_int

/-- The bound of the negotiation loop, `sizeof(gl_versions) / sizeof(int) * 2`
(division and multiplication associate to the left). -/
def gl_loop_bound : Nat := sizeof_gl_versions / sizeof_int * 2

/-- How the `for` loop of `create_sdl_gl_context` is left. -/
inductive GLLoopExit where
  | created (context : Nat)
  | exhausted
  | sdl_error
  | out_of_bounds
  deriving DecidableEq, Repr

/-- The `for (i = 0; i < bound; i++)` loop of `create_sdl_gl_context`, by
recursion on the iterations that remain (`remaining = bound - i`). Reading
`gl_versions[i]` is logged; a read outside the table is undefined behaviour. -/
def gl_loop (E : GLEnv σ) (sdl_window : Nat) : Nat → Nat → World σ → GLLoopExit × World σ
  | 0, _, w => (GLLoopExit.exhausted, w)
  | remaining + 1, i, w =>
    let w0 : World σ := ⟨w.st, w.log ++ [Call.gl_versions_read i]⟩
    match gl_versions.get? i with
    | none => (GLLoopExit.out_of_bounds, w0)
    | some version =>
      let r1 := E.setAttribute w0 SDL_GLAttr.SDL_GL_CONTEXT_MAJOR_VERSION version.1
      if !r1.1 then (GLLoopExit.sdl_error, r1.2)
      else
        let r2 := E.setAttribute r1.2 SDL_GLAttr.SDL_GL_CONTEXT_MAJOR_VERSION version.2
        if !r2.1 then (GLLoopExit.sdl_error, r2.2)
        else
          let r3 := E.createContext r2.2 sdl_window
          if r3.1 ≠ 0 then (GLLoopExit.created r3.1, r3.2)
          else gl_loop E sdl_window remaining (i + 1) r3.2

/-- The `error:` label of `create_sdl_gl_context`: a live context is destroyed,
and a failing destroy raises and jumps back to the label; one unit of fuel per
pass through the label. -/
def gl_error_label (E : GLEnv σ) (sdl_gl_context : Nat) : Nat → PyExc → World σ →
    Option (PyResult × World σ)
  | 0, _, _ => none
  | fuel + 1, exc, w =>
    if sdl_gl_context ≠ 0 then
      if !(E.destroyContext w sdl_gl_context).1 then
        gl_error_label E sdl_gl_context fuel PyExc.RuntimeError
          (E.destroyContext w sdl_gl_context).2
      else some (PyResult.raised exc, (E.destroyContext w sdl_gl_context).2)
    else some (PyResult.raised exc, w)

/-- Embedding of `create_sdl_gl_context(module, py_sdl_window)`. -/
def create_sdl_gl_context (E : GLEnv σ) (fuel : Nat) (w : World σ) (py_sdl_window : PyObj) :
    Option (PyResult × World σ) :=
  let sdl_window := PyCapsule_GetPointer py_sdl_window "_eplatform.SDL_Window"
  if sdl_window.1 = 0 then
    gl_error_label E 0 fuel (sdl_window.2.getD PyExc.ValueError) w
  else
    let r0 := E.setAttribute w SDL_GLAttr.SDL_GL_CONTEXT_PROFILE_MASK SDL_GL_CONTEXT_PROFILE_CORE
    if !r0.1 then gl_error_label E 0 fuel PyExc.RuntimeError r0.2
    else
      match gl_loop E sdl_window.1 gl_loop_bound 0 r0.2 with
      | (GLLoopExit.out_of_bounds, w1) => some (PyResult.undefined, w1)
      | (GLLoopExit.sdl_error, w1) => gl_error_label E 0 fuel PyExc.RuntimeError w1
      | (GLLoopExit.exhausted, w1) => gl_error_label E 0 fuel PyExc.RuntimeError w1
      | (GLLoopExit.created sdl_gl_context, w1) =>
        let r := E.capsuleNew w1 sdl_gl_context "_eplatform.SDL_GLContext"
        if !r.1 then gl_error_label E sdl_gl_context fuel PyExc.MemoryError r.2
        else some (PyResult.ok (PyObj.capsule "_eplatform.SDL_GLContext" sdl_gl_context), r.2)

/-- A native library that rejects every swap interval, accepts every attribute,
never creates a context and never destroys one. -/
def refusingGL : GLEnv Unit where
  SDL_GL_SetSwapInterval := fun s _ => (false, s)
  SDL_GL_SwapWindow := fun s _ => (true, s)
  SDL_GL_SetAttribute := fun s _ _ => (true, s)
  SDL_GL_CreateContext := fun s _ => (0, s)
  SDL_GL_DestroyContext := fun s _ => (false, s)
  PyCapsule_New := fun s _ _ => (true, s)

/-- A native library that accepts every request; the context created for a
window is the handle 7. -/
def acceptingGL : GLEnv Unit where
  SDL_GL_SetSwapInterval := fun s _ => (true, s)
  SDL_GL_SwapWindow := fun s _ => (true, s)
  SDL_GL_SetAttribute := fun s _ _ => (true, s)
  SDL_GL_CreateContext := fun s _ => (7, s)
  SDL_GL_DestroyContext := fun s _ => (true, s)
  PyCapsule_New := fun s _ _ => (true, s)


/-! ## Clipboard -/

/-- The native clipboard calls, as transitions on the environment state.  A
text is passed and returned as a C string; `none` is the NULL pointer. -/
structure ClipEnv (σ : Type) where
  SDL_SetClipboardText : σ → List Nat → Bool × σ
  SDL_GetClipboardText : σ → Option (List Nat) × σ
  SDL_HasClipboardText : σ → Bool × σ

/-- Call `SDL_SetClipboardText` and log it. -/
def ClipEnv.setClipboardText (E : ClipEnv σ) (w : World σ) (text : List Nat) :
    Bool × World σ :=
  ((E.SDL_SetClipboardText w.st text).1,
   ⟨(E.SDL_SetClipboardText w.st text).2, w.log ++ [Call.SDL_SetClipboardText text]⟩)

/-- Call `SDL_GetClipboardText` and log it. -/
def ClipEnv.getClipboardText (E : ClipEnv σ) (w : World σ) : Option (List Nat) × World σ :=
  ((E.SDL_GetClipboardText w.st).1,
   ⟨(E.SDL_GetClipboardText w.st).2, w.log ++ [Call.SDL_GetClipboardText]⟩)

/-- Call `SDL_HasClipboardText` and log it. -/
def ClipEnv.hasClipboardText (E : ClipEnv σ) (w : World σ) : Bool × World σ :=
  ((E.SDL_HasClipboardText w.st).1,
   ⟨(E.SDL_HasClipboardText w.st).2, w.log ++ [Call.SDL_HasClipboardText]⟩)

/-- Log a call of `SDL_free`. -/
def World.free (w : World σ) : World σ := ⟨w.st, w.log ++ [Call.SDL_free]⟩

/-- Embedding of `set_clipboard(module, py_str)`.  The size that
`PyUnicode_AsUTF8AndSize` reports is not used: the native call receives the
buffer as a C string. -/
def set_clipboard (E : ClipEnv σ) (w : World σ) (py_str : PyObj) : PyResult × World σ :=
  let str := PyUnicode_AsUTF8AndSize py_str
  match str.1 with
  | none => (PyResult.raised (str.2.getD PyExc.TypeError), w)
  | some buffer =>
    if !(E.setClipboardText w (cstring buffer)).1 then
      (PyResult.raised PyExc.RuntimeError, (E.setClipboardText w (cstring buffer)).2)
    else (PyResult.ok PyObj.None, (E.setClipboardText w (cstring buffer)).2)

/-- Embedding of `get_clipboard(module, unused)`. -/
def get_clipboard (E : ClipEnv σ) (w : World σ) : PyResult × World σ :=
  match (E.getClipboardText w).1 with
  | none =>
    if (E.hasClipboardText (E.getClipboardText w).2.free).1 then
      (PyResult.raised PyExc.RuntimeError, (E.hasClipboardText (E.getClipboardText w).2.free).2)
    else (PyUnicode_FromString [], (E.hasClipboardText (E.getClipboardText w).2.free).2)
  | some str => (PyUnicode_FromString str, (E.getClipboardText w).2.free)

/-- A native clipboard that stores the C string it is given and returns it
unchanged; it reports text when the stored string is not empty. -/
def storingClipboard : ClipEnv (List Nat) where
  SDL_SetClipboardText := fun _ text => (true, text)
  SDL_GetClipboardText := fun s => (some s, s)
  SDL_HasClipboardText := fun s => (decide (s ≠ []), s)

/-- A native clipboard whose `SDL_GetClipboardText` returns NULL; the state is
what `SDL_HasClipboardText` reports. -/
def nullClipboard : ClipEnv Bool where
  SDL_SetClipboardText := fun s _ => (false, s)
  SDL_GetClipboardText := fun s => (none, s)
  SDL_HasClipboardText := fun s => (s, s)

/-! ## Events -/

/-- The native event-queue calls and the vector-math API, as transitions on the
environment state.  `SDL_PollEvent` yields the polled record or `none` when it
returns 0; `EMathApi_Get` and `IVector2_Create` yield `none` on success and the
exception they set on failure. -/
structure EventEnv (σ : Type) where
  SDL_PushEvent : σ → SDL_Event → Bool × σ
  SDL_PollEvent : σ → Option SDL_Event × σ
  EMathApi_Get : σ → Option PyExc × σ
  EMathApi_Release : σ → σ
  IVector2_Create : σ → Int → Int → Option PyExc × σ

/-- Call `SDL_PushEvent` and log it. -/
def EventEnv.pushEvent (E : EventEnv σ) (w : World σ) (event : SDL_Event) : Bool × World σ :=
  ((E.SDL_PushEvent w.st event).1,
   ⟨(E.SDL_PushEvent w.st event).2, w.log ++ [Call.SDL_PushEvent event]⟩)

/-- Call `SDL_PollEvent` and log it. -/
def EventEnv.pollEvent (E : EventEnv σ) (w : World σ) : Option SDL_Event × World σ :=
  ((E.SDL_PollEvent w.st).1, ⟨(E.SDL_PollEvent w.st).2, w.log ++ [Call.SDL_PollEvent]⟩)

/-- Call `EMathApi_Get` and log it. -/
def EventEnv.emathGet (E : EventEnv σ) (w : World σ) : Option PyExc × World σ :=
  ((E.EMathApi_Get w.st).1, ⟨(E.EMathApi_Get w.st).2, w.log ++ [Call.EMathApi_Get]⟩)

/-- Call `EMathApi_Release` and log it. -/
def EventEnv.emathRelease (E : EventEnv σ) (w : World σ) : World σ :=
  ⟨E.EMathApi_Release w.st, w.log ++ [Call.EMathApi_Release]⟩

/-- Call `emath_api->IVector2_Create` and log it. -/
def EventEnv.ivector2Create (E : EventEnv σ) (w : World σ) (x y : Int) :
    Option PyExc × World σ :=
  ((E.IVector2_Create w.st x y).1,
   ⟨(E.IVector2_Create w.st x y).2, w.log ++ [Call.IVector2_Create x y]⟩)

/-- The comparison `obj == Py_True`, an identity test against the `True`
singleton. -/
def is_Py_True (obj : PyObj) : Bool :=
  match obj with
  | PyObj.bool true => true
  | _ => false

/-- The statement `v = PyLong_AsLong(obj); CHECK_UNEXPECTED_PYTHON_ERROR();`. -/
def PyLong_AsLong_checked (obj : PyObj) : Except PyExc Int :=
  match (PyLong_AsLong obj).2 with
  | some exc => Except.error exc
  | none => Except.ok (PyLong_AsLong obj).1

/-- The statement `p = PyUnicode_AsUTF8(obj); CHECK_UNEXPECTED_PYTHON_ERROR();`:
the pointer stored is the buffer, read later as a C string. -/
def PyUnicode_AsUTF8_checked (obj : PyObj) : Except PyExc (Option (List Nat)) :=
  match (PyUnicode_AsUTF8AndSize obj).2 with
  | some exc => Except.error exc
  | none => Except.ok ((PyUnicode_AsUTF8AndSize obj).1.map cstring)

/-- The macro `CHECK_UNEXPECTED_ARG_COUNT_ERROR(expected_count)`. -/
def CHECK_UNEXPECTED_ARG_COUNT_ERROR (expected_count nargs : Nat) : Except PyExc Unit :=
  if expected_count ≠ nargs then Except.error PyExc.TypeError else Except.ok ()

/-- The `case SDL_EVENT_MOUSE_MOTION` block of `push_sdl_event`. -/
def push_sdl_event_motion (event : SDL_Event) (args : List PyObj) : Except PyExc SDL_Event := do
  CHECK_UNEXPECTED_ARG_COUNT_ERROR 5 args.length
  let x ← PyLong_AsLong_checked (args.getD 1 PyObj.None)
  let y ← PyLong_AsLong_checked (args.getD 2 PyObj.None)
  let xrel ← PyLong_AsLong_checked (args.getD 3 PyObj.None)
  let yrel ← PyLong_AsLong_checked (args.getD 4 PyObj.None)
  pure { event with motion_x := f32_of_long x, motion_y := f32_of_long y,
                    motion_xrel := f32_of_long xrel, motion_yrel := f32_of_long yrel }

/-- The `case SDL_EVENT_MOUSE_WHEEL` block of `push_sdl_event`. -/
def push_sdl_event_wheel (event : SDL_Event) (args : List PyObj) : Except PyExc SDL_Event := do
  CHECK_UNEXPECTED_ARG_COUNT_ERROR 4 args.length
  let direction :=
    if is_Py_True (args.getD 1 PyObj.None) then SDL_MOUSEWHEEL_FLIPPED
    else SDL_MOUSEWHEEL_NORMAL
  let x ← PyLong_AsLong_checked (args.getD 2 PyObj.None)
  let y ← PyLong_AsLong_checked (args.getD 3 PyObj.None)
  pure { event with wheel_direction := direction, wheel_x := f32_of_long x,
                    wheel_y := f32_of_long y }

/-- The `case SDL_EVENT_MOUSE_BUTTON_DOWN` / `SDL_EVENT_MOUSE_BUTTON_UP` block of
`push_sdl_event`. -/
def push_sdl_event_button (event : SDL_Event) (args : List PyObj) : Except PyExc SDL_Event := do
  CHECK_UNEXPECTED_ARG_COUNT_ERROR 3 args.length
  let button ← PyLong_AsLong_checked (args.getD 1 PyObj.None)
  pure { event with button_button := toUint8 button,
                    button_down := is_Py_True (args.getD 2 PyObj.None) }

/-- The `case SDL_EVENT_KEY_DOWN` / `SDL_EVENT_KEY_UP` block of `push_sdl_event`. -/
def push_sdl_event_key (event : SDL_Event) (args : List PyObj) : Except PyExc SDL_Event := do
  CHECK_UNEXPECTED_ARG_COUNT_ERROR 4 args.length
  let scancode ← PyLong_AsLong_checked (args.getD 1 PyObj.None)
  pure { event with key_scancode := toCInt scancode,
                    key_down := is_Py_True (args.getD 2 PyObj.None),
                    key_repeat := is_Py_True (args.getD 3 PyObj.None) }

/-- The `case SDL_EVENT_TEXT_INPUT` block of `push_sdl_event`. -/
def push_sdl_event_text (event : SDL_Event) (args : List PyObj) : Except PyExc SDL_Event := do
  CHECK_UNEXPECTED_ARG_COUNT_ERROR 2 args.length
  let text ← PyUnicode_AsUTF8_checked (args.getD 1 PyObj.None)
  pure { event with text_text := text }

/-- The `case SDL_EVENT_WINDOW_RESIZED` block of `push_sdl_event`. -/
def push_sdl_event_resized (event : SDL_Event) (args : List PyObj) :
    Except PyExc SDL_Event := do
  CHECK_UNEXPECTED_ARG_COUNT_ERROR 3 args.length
  let data1 ← PyLong_AsLong_checked (args.getD 1 PyObj.None)
  let data2 ← PyLong_AsLong_checked (args.getD 2 PyObj.None)
  pure { event with window_data1 := toCInt data1, window_data2 := toCInt data2 }

/-- The `switch (event.type)` of `push_sdl_event`; an event type without a
`case` leaves the record as it is. -/
def push_sdl_event_switch (event : SDL_Event) (args : List PyObj) : Except PyExc SDL_Event :=
  if event.type = SDL_EVENT_MOUSE_MOTION then push_sdl_event_motion event args
  else if event.type = SDL_EVENT_MOUSE_WHEEL then push_sdl_event_wheel event args
  else if event.type = SDL_EVENT_MOUSE_BUTTON_DOWN ∨
      event.type = SDL_EVENT_MOUSE_BUTTON_UP then push_sdl_event_button event args
  else if event.type = SDL_EVENT_KEY_DOWN ∨ event.type = SDL_EVENT_KEY_UP then
    push_sdl_event_key event args
  else if event.type = SDL_EVENT_TEXT_INPUT then push_sdl_event_text event args
  else if event.type = SDL_EVENT_WINDOW_RESIZED then push_sdl_event_resized event args
  else Except.ok event

/-- The part of `push_sdl_event` from `event.type = ...` to the end of the
`switch`: the record that will be pushed, or the exception of a `goto error`.
`uninit` is the content of the uninitialised local `SDL_Event event`. -/
def push_sdl_event_fill (uninit : SDL_Event) (args : List PyObj) : Except PyExc SDL_Event :=
  match PyLong_AsLong_checked (args.getD 0 PyObj.None) with
  | Except.error exc => Except.error exc
  | Except.ok type => push_sdl_event_switch { uninit with type := toUint32 type } args

/-- Embedding of `push_sdl_event(module, args, nargs)`. -/
def push_sdl_event (E : EventEnv σ) (w : World σ) (uninit : SDL_Event) (args : List PyObj) :
    PyResult × World σ :=
  if args.length = 0 then (PyResult.raised PyExc.TypeError, w)
  else
    match push_sdl_event_fill uninit args with
    | Except.error exc => (PyResult.raised exc, w)
    | Except.ok event =>
      if !(E.pushEvent w event).1 then (PyResult.raised PyExc.RuntimeError, (E.pushEvent w event).2)
      else (PyResult.ok PyObj.None, (E.pushEvent w event).2)

/-- The `error:` label of `get_sdl_event`: the vector-math API is released when
`emath_api` is set, and the pending exception is returned. -/
def get_sdl_event_error (E : EventEnv σ) (w : World σ) (emath_api : Bool) (exc : PyExc) :
    PyResult × World σ :=
  if emath_api then (PyResult.raised exc, E.emathRelease w) else (PyResult.raised exc, w)

/-- The format unit `s` of `Py_BuildValue`: `None` for a NULL pointer, otherwise
the `str` decoded from the C string. -/
def Py_BuildValue_s (text : Option (List Nat)) : PyResult :=
  match text with
  | none => PyResult.ok PyObj.None
  | some str => PyUnicode_FromString str

/-- The `case SDL_EVENT_MOUSE_MOTION` block of `get_sdl_event`. -/
def get_sdl_event_motion (E : EventEnv σ) (w : World σ) (event : SDL_Event) :
    PyResult × World σ :=
  match (E.emathGet w).1 with
  | some exc => get_sdl_event_error E (E.emathGet w).2 false exc
  | none =>
    match f32_to_int event.motion_x, f32_to_int event.motion_y with
    | some px, some py =>
      match (E.ivector2Create (E.emathGet w).2 px py).1 with
      | some exc => get_sdl_event_error E (E.ivector2Create (E.emathGet w).2 px py).2 true exc
      | none =>
        match f32_to_int event.motion_xrel, f32_to_int event.motion_yrel with
        | some dx, some dy =>
          match (E.ivector2Create (E.ivector2Create (E.emathGet w).2 px py).2 dx dy).1 with
          | some exc =>
            get_sdl_event_error E
              (E.ivector2Create (E.ivector2Create (E.emathGet w).2 px py).2 dx dy).2 true exc
          | none =>
            (PyResult.ok (PyObj.tuple
                [PyObj.int (toCInt event.type), PyObj.IVector2 px py, PyObj.IVector2 dx dy]),
              E.emathRelease
                (E.ivector2Create (E.ivector2Create (E.emathGet w).2 px py).2 dx dy).2)
        | _, _ => (PyResult.undefined, (E.ivector2Create (E.emathGet w).2 px py).2)
    | _, _ => (PyResult.undefined, (E.emathGet w).2)

/-- The `case SDL_EVENT_MOUSE_WHEEL` block of `get_sdl_event`. -/
def get_sdl_event_wheel (E : EventEnv σ) (w : World σ) (event : SDL_Event) :
    PyResult × World σ :=
  match (E.emathGet w).1 with
  | some exc => get_sdl_event_error E (E.emathGet w).2 false exc
  | none =>
    let c : Int := if event.wheel_direction = SDL_MOUSEWHEEL_FLIPPED then -1 else 1
    match f32_to_int event.wheel_x, f32_to_int event.wheel_y with
    | some x, some y =>
      match (E.ivector2Create (E.emathGet w).2 (toCInt (x * c)) (toCInt (y * c))).1 with
      | some exc =>
        get_sdl_event_error E
          (E.ivector2Create (E.emathGet w).2 (toCInt (x * c)) (toCInt (y * c))).2 true exc
      | none =>
        (PyResult.ok (PyObj.tuple
            [PyObj.int (toCInt event.type),
             PyObj.IVector2 (toCInt (x * c)) (toCInt (y * c))]),
          E.emathRelease
            (E.ivector2Create (E.emathGet w).2 (toCInt (x * c)) (toCInt (y * c))).2)
    | _, _ => (PyResult.undefined, (E.emathGet w).2)

/-- The `case SDL_EVENT_WINDOW_RESIZED` block of `get_sdl_event`. -/
def get_sdl_event_resized (E : EventEnv σ) (w : World σ) (event : SDL_Event) :
    PyResult × World σ :=
  match (E.emathGet w).1 with
  | some exc => get_sdl_event_error E (E.emathGet w).2 false exc
  | none =>
    match (E.ivector2Create (E.emathGet w).2
        (toCInt event.window_data1) (toCInt event.window_data2)).1 with
    | some exc =>
      get_sdl_event_error E
        (E.ivector2Create (E.emathGet w).2
          (toCInt event.window_data1) (toCInt event.window_data2)).2 true exc
    | none =>
      (PyResult.ok (PyObj.tuple
          [PyObj.int (toCInt event.type),
           PyObj.IVector2 (toCInt event.window_data1) (toCInt event.window_data2)]),
        E.emathRelease
          (E.ivector2Create (E.emathGet w).2
            (toCInt event.window_data1) (toCInt event.window_data2)).2)

/-- Embedding of `get_sdl_event(module, unused)`. -/
def get_sdl_event (E : EventEnv σ) (w : World σ) : PyResult × World σ :=
  match (E.pollEvent w).1 with
  | none => (PyResult.ok PyObj.None, (E.pollEvent w).2)
  | some event =>
    if event.type = SDL_EVENT_MOUSE_MOTION then get_sdl_event_motion E (E.pollEvent w).2 event
    else if event.type = SDL_EVENT_MOUSE_WHEEL then
      get_sdl_event_wheel E (E.pollEvent w).2 event
    else if event.type = SDL_EVENT_MOUSE_BUTTON_DOWN ∨
        event.type = SDL_EVENT_MOUSE_BUTTON_UP then
      (PyResult.ok (PyObj.tuple
          [PyObj.int (toCInt event.type), PyObj.int (toUint8 event.button_button),
           PyObj.bool event.button_down]),
        (E.pollEvent w).2)
    else if event.type = SDL_EVENT_KEY_DOWN ∨ event.type = SDL_EVENT_KEY_UP then
      (PyResult.ok (PyObj.tuple
          [PyObj.int (toCInt event.type), PyObj.int (toCInt event.key_scancode),
           PyObj.bool event.key_down, PyObj.bool event.key_repeat]),
        (E.pollEvent w).2)
    else if event.type = SDL_EVENT_TEXT_INPUT then
      match Py_BuildValue_s event.text_text with
      | PyResult.ok text =>
        (PyResult.ok (PyObj.tuple [PyObj.int (toCInt event.type), text]), (E.pollEvent w).2)
      | failure => (failure, (E.pollEvent w).2)
    else if event.type = SDL_EVENT_WINDOW_RESIZED then
      get_sdl_event_resized E (E.pollEvent w).2 event
    else (PyResult.ok (PyObj.tuple [PyObj.int (toCInt event.type)]), (E.pollEvent w).2)

/-- A native event queue that returns pushed events unchanged, first in first
out, together with a vector-math API whose calls succeed. -/
def fifoEvents : EventEnv (List SDL_Event) where
  SDL_PushEvent := fun queue event => (true, queue ++ [event])
  SDL_PollEvent := fun queue =>
    match queue with
    | [] => (none, [])
    | event :: rest => (some event, rest)
  EMathApi_Get := fun queue => (none, queue)
  EMathApi_Release := fun queue => queue
  IVector2_Create := fun queue _ _ => (none, queue)

/-- An `SDL_Event` with every field zero. -/
def zeroEvent : SDL_Event where
  type := 0
  motion_x := F32.finite 0 0
  motion_y := F32.finite 0 0
  motion_xrel := F32.finite 0 0
  motion_yrel := F32.finite 0 0
  wheel_direction := 0
  wheel_x := F32.finite 0 0
  wheel_y := F32.finite 0 0
  button_button := 0
  button_down := false
  key_scancode := 0
  key_down := false
  key_repeat := false
  text_text := none
  window_data1 := 0
  window_data2 := 0

/-- The results of `push_sdl_event(*args)` followed by `get_sdl_event()`, on an
empty first-in-first-out event queue. -/
def push_then_get (uninit : SDL_Event) (args : List PyObj) : PyResult × PyResult :=
  ((push_sdl_event fifoEvents ⟨[], []⟩ uninit args).1,
   (get_sdl_event fifoEvents (push_sdl_event fifoEvents ⟨[], []⟩ uninit args).2).1)

/-- The fields of a record hold values of their C types: `Uint32` event type,
`Uint8` button, `int` scancode, `Sint32` window data. -/
def SDL_Event.wellTyped (event : SDL_Event) : Prop :=
  event.type < 4294967296 ∧ event.button_button < 256 ∧
  (INT_MIN ≤ event.key_scancode ∧ event.key_scancode ≤ INT_MAX) ∧
  (INT_MIN ≤ event.window_data1 ∧ event.window_data1 ≤ INT_MAX) ∧
  (INT_MIN ≤ event.window_data2 ∧ event.window_data2 ≤ INT_MAX)

instance (event : SDL_Event) : Decidable event.wellTyped := by
  unfold SDL_Event.wellTyped
  infer_instance

/-- A record of the event type 2^32 - 1, the one `push_sdl_event(-1)` pushes. -/
def maxTypeEvent : SDL_Event := { zeroEvent with type := 4294967295 }

/-- A key-down record: scancode 4, pressed, not a repeat. -/
def keyDownEvent : SDL_Event :=
  { zeroEvent with type := SDL_EVENT_KEY_DOWN, key_scancode := 4, key_down := true }

/-- A mouse-wheel record with flipped direction and the amounts -2^31 and 0. -/
def flippedMinWheel : SDL_Event :=
  { zeroEvent with type := SDL_EVENT_MOUSE_WHEEL, wheel_direction := SDL_MOUSEWHEEL_FLIPPED,
                   wheel_x := F32.finite (-2147483648) 0 }

/-- A mouse-wheel record with normal direction and the amounts 2^31 and 0. -/
def hugeWheel : SDL_Event :=
  { zeroEvent with type := SDL_EVENT_MOUSE_WHEEL, wheel_direction := SDL_MOUSEWHEEL_NORMAL,
                   wheel_x := F32.finite 1 31 }

/-- A mouse-wheel record with flipped direction and the amounts 2.5 and -7. -/
def flippedWheel : SDL_Event :=
  { zeroEvent with type := SDL_EVENT_MOUSE_WHEEL, wheel_direction := SDL_MOUSEWHEEL_FLIPPED,
                   wheel_x := F32.finite 5 (-1), wheel_y := F32.finite (-7) 0 }

/-- The results of `set_clipboard(py_str)` followed by `get_clipboard()`, on the
storing clipboard with the initial content `init`. -/
def set_then_get_clipboard (init : List Nat) (py_str : PyObj) : PyResult × PyResult :=
  ((set_clipboard storingClipboard ⟨init, []⟩ py_str).1,
   (get_clipboard storingClipboard (set_clipboard storingClipboard ⟨init, []⟩ py_str).2).1)

/-! ## Windows -/

/-- Value of `SDL_WINDOWPOS_CENTERED` in the SDL3 headers. -/
def SDL_WINDOWPOS_CENTERED : Int := 0x2FFF0000

/-- The native window calls and the vector-math API, as transitions on the
environment state.  `EMathApi_Get` yields `none` on success and the exception
it sets on failure. -/
structure WindowEnv (σ : Type) where
  SDL_ShowWindow : σ → Nat → Bool × σ
  SDL_HideWindow : σ → Nat → Bool × σ
  SDL_SetWindowPosition : σ → Nat → Int → Int → Bool × σ
  SDL_SetWindowSize : σ → Nat → Int → Int → Bool × σ
  SDL_StopTextInput : σ → Nat → Bool × σ
  EMathApi_Get : σ → Option PyExc × σ
  EMathApi_Release : σ → σ

/-- Call `SDL_ShowWindow` and log it. -/
def WindowEnv.showWindow (E : WindowEnv σ) (w : World σ) (window : Nat) : Bool × World σ :=
  ((E.SDL_ShowWindow w.st window).1,
   ⟨(E.SDL_ShowWindow w.st window).2, w.log ++ [Call.SDL_ShowWindow window]⟩)

/-- Call `SDL_HideWindow` and log it. -/
def WindowEnv.hideWindow (E : WindowEnv σ) (w : World σ) (window : Nat) : Bool × World σ :=
  ((E.SDL_HideWindow w.st window).1,
   ⟨(E.SDL_HideWindow w.st window).2, w.log ++ [Call.SDL_HideWindow window]⟩)

/-- Call `SDL_SetWindowPosition` and log it. -/
def WindowEnv.setWindowPosition (E : WindowEnv σ) (w : World σ) (window : Nat) (x y : Int) :
    Bool × World σ :=
  ((E.SDL_SetWindowPosition w.st window x y).1,
   ⟨(E.SDL_SetWindowPosition w.st window x y).2,
    w.log ++ [Call.SDL_SetWindowPosition window x y]⟩)

/-- Call `SDL_SetWindowSize` and log it. -/
def WindowEnv.setWindowSize (E : WindowEnv σ) (w : World σ) (window : Nat) (x y : Int) :
    Bool × World σ :=
  ((E.SDL_SetWindowSize w.st window x y).1,
   ⟨(E.SDL_SetWindowSize w.st window x y).2, w.log ++ [Call.SDL_SetWindowSize window x y]⟩)

/-- Call `SDL_StopTextInput` and log it. -/
def WindowEnv.stopTextInput (E : WindowEnv σ) (w : World σ) (window : Nat) : Bool × World σ :=
  ((E.SDL_StopTextInput w.st window).1,
   ⟨(E.SDL_StopTextInput w.st window).2, w.log ++ [Call.SDL_StopTextInput window]⟩)

/-- Call `EMathApi_Get` and log it. -/
def WindowEnv.emathGet (E : WindowEnv σ) (w : World σ) : Option PyExc × World σ :=
  ((E.EMathApi_Get w.st).1, ⟨(E.EMathApi_Get w.st).2, w.log ++ [Call.EMathApi_Get]⟩)

/-- Call `EMathApi_Release` and log it. -/
def WindowEnv.emathRelease (E : WindowEnv σ) (w : World σ) : World σ :=
  ⟨E.EMathApi_Release w.st, w.log ++ [Call.EMathApi_Release]⟩

/-- Embedding of `show_sdl_window(module, py_sdl_window)`. -/
def show_sdl_window (E : WindowEnv σ) (w : World σ) (py_sdl_window : PyObj) :
    PyResult × World σ :=
  let sdl_window := PyCapsule_GetPointer py_sdl_window "_eplatform.SDL_Window"
  if sdl_window.1 = 0 then (PyResult.raised (sdl_window.2.getD PyExc.ValueError), w)
  else if !(E.showWindow w sdl_window.1).1 then
    (PyResult.raised PyExc.RuntimeError, (E.showWindow w sdl_window.1).2)
  else (PyResult.ok PyObj.None, (E.showWindow w sdl_window.1).2)

/-- Embedding of `hide_sdl_window(module, py_sdl_window)`. -/
def hide_sdl_window (E : WindowEnv σ) (w : World σ) (py_sdl_window : PyObj) :
    PyResult × World σ :=
  let sdl_window := PyCapsule_GetPointer py_sdl_window "_eplatform.SDL_Window"
  if sdl_window.1 = 0 then (PyResult.raised (sdl_window.2.getD PyExc.ValueError), w)
  else if !(E.hideWindow w sdl_window.1).1 then
    (PyResult.raised PyExc.RuntimeError, (E.hideWindow w sdl_window.1).2)
  else (PyResult.ok PyObj.None, (E.hideWindow w sdl_window.1).2)

/-- Embedding of `center_sdl_window(module, py_sdl_window)`. -/
def center_sdl_window (E : WindowEnv σ) (w : World σ) (py_sdl_window : PyObj) :
    PyResult × World σ :=
  let sdl_window := PyCapsule_GetPointer py_sdl_window "_eplatform.SDL_Window"
  if sdl_window.1 = 0 then (PyResult.raised (sdl_window.2.getD PyExc.ValueError), w)
  else if !(E.setWindowPosition w sdl_window.1 SDL_WINDOWPOS_CENTERED
      SDL_WINDOWPOS_CENTERED).1 then
    (PyResult.raised PyExc.RuntimeError,
      (E.setWindowPosition w sdl_window.1 SDL_WINDOWPOS_CENTERED SDL_WINDOWPOS_CENTERED).2)
  else
    (PyResult.ok PyObj.None,
      (E.setWindowPosition w sdl_window.1 SDL_WINDOWPOS_CENTERED SDL_WINDOWPOS_CENTERED).2)

/-- Embedding of `disable_sdl_window_text_input(module, py_sdl_window)`. -/
def disable_sdl_window_text_input (E : WindowEnv σ) (w : World σ) (py_sdl_window : PyObj) :
    PyResult × World σ :=
  let sdl_window := PyCapsule_GetPointer py_sdl_window "_eplatform.SDL_Window"
  if sdl_window.1 = 0 then (PyResult.raised (sdl_window.2.getD PyExc.ValueError), w)
  else if !(E.stopTextInput w sdl_window.1).1 then
    (PyResult.raised PyExc.RuntimeError, (E.stopTextInput w sdl_window.1).2)
  else (PyResult.ok PyObj.None, (E.stopTextInput w sdl_window.1).2)

/-- Embedding of `delete_sdl_gl_context(module, py_sdl_gl_context)`. -/
def delete_sdl_gl_context (E : GLEnv σ) (w : World σ) (py_sdl_gl_context : PyObj) :
    PyResult × World σ :=
  let sdl_gl_context := PyCapsule_GetPointer py_sdl_gl_context "_eplatform.SDL_GLContext"
  if sdl_gl_context.1 = 0 then (PyResult.raised (sdl_gl_context.2.getD PyExc.ValueError), w)
  else if !(E.destroyContext w sdl_gl_context.1).1 then
    (PyResult.raised PyExc.RuntimeError, (E.destroyContext w sdl_gl_context.1).2)
  else (PyResult.ok PyObj.None, (E.destroyContext w sdl_gl_context.1).2)

/-- Model of `emath_api->IVector2_GetValuePointer(obj)`: the two `int` components
of an `IVector2`; NULL with an exception set for any other object. -/
def IVector2_GetValuePointer (obj : PyObj) : Option (Int × Int) × Option PyExc :=
  match obj with
  | PyObj.IVector2 x y => (some (x, y), none)
  | _ => (none, some PyExc.TypeError)

/-- The `error:` label of `set_sdl_window_size`: the vector-math API is released
when `emath_api` is set, and the pending exception is returned. -/
def set_sdl_window_size_error (E : WindowEnv σ) (w : World σ) (emath_api : Bool)
    (exc : PyExc) : PyResult × World σ :=
  if emath_api then (PyResult.raised exc, E.emathRelease w) else (PyResult.raised exc, w)

/-- Embedding of `set_sdl_window_size(module, args, nargs)`. -/
def set_sdl_window_size (E : WindowEnv σ) (w : World σ) (args : List PyObj) :
    PyResult × World σ :=
  if 2 ≠ args.length then set_sdl_window_size_error E w false PyExc.TypeError
  else
    let sdl_window := PyCapsule_GetPointer (args.getD 0 PyObj.None) "_eplatform.SDL_Window"
    if sdl_window.1 = 0 then
      set_sdl_window_size_error E w false (sdl_window.2.getD PyExc.ValueError)
    else
      match (E.emathGet w).1 with
      | some exc => set_sdl_window_size_error E (E.emathGet w).2 false exc
      | none =>
        let w1 : World σ :=
          ⟨(E.emathGet w).2.st, (E.emathGet w).2.log ++ [Call.IVector2_GetValuePointer]⟩
        let size := IVector2_GetValuePointer (args.getD 1 PyObj.None)
        match size.2 with
        | some exc => set_sdl_window_size_error E w1 true exc
        | none =>
          if !(E.setWindowSize (E.emathRelease w1) sdl_window.1
              (size.1.getD (0, 0)).1 (size.1.getD (0, 0)).2).1 then
            set_sdl_window_size_error E
              (E.setWindowSize (E.emathRelease w1) sdl_window.1
                (size.1.getD (0, 0)).1 (size.1.getD (0, 0)).2).2 false PyExc.RuntimeError
          else
            (PyResult.ok PyObj.None,
              (E.setWindowSize (E.emathRelease w1) sdl_window.1
                (size.1.getD (0, 0)).1 (size.1.getD (0, 0)).2).2)

/-- A native window library in which every call fails or every call succeeds,
as the state says; the vector-math API is available. -/
def uniformWindows : WindowEnv Bool where
  SDL_ShowWindow := fun s _ => (s, s)
  SDL_HideWindow := fun s _ => (s, s)
  SDL_SetWindowPosition := fun s _ _ _ => (s, s)
  SDL_SetWindowSize := fun s _ _ _ => (s, s)
  SDL_StopTextInput := fun s _ => (s, s)
  EMathApi_Get := fun s => (none, s)
  EMathApi_Release := fun s => s

/-- A native window library in which every call fails. -/
def failingWindows : WindowEnv Unit where
  SDL_ShowWindow := fun s _ => (false, s)
  SDL_HideWindow := fun s _ => (false, s)
  SDL_SetWindowPosition := fun s _ _ _ => (false, s)
  SDL_SetWindowSize := fun s _ _ _ => (false, s)
  SDL_StopTextInput := fun s _ => (false, s)
  EMathApi_Get := fun s => (none, s)
  EMathApi_Release := fun s => s

/-! ## Cursor and the method table -/

/-- The native cursor calls, as transitions on the environment state. -/
structure CursorEnv (σ : Type) where
  SDL_ShowCursor : σ → Bool × σ
  SDL_HideCursor : σ → Bool × σ

/-- Embedding of `show_cursor(module, unused)`. -/
def show_cursor (E : CursorEnv σ) (w : World σ) : PyResult × World σ :=
  if !(E.SDL_ShowCursor w.st).1 then
    (PyResult.raised PyExc.RuntimeError,
      ⟨(E.SDL_ShowCursor w.st).2, w.log ++ [Call.SDL_ShowCursor]⟩)
  else (PyResult.ok PyObj.None, ⟨(E.SDL_ShowCursor w.st).2, w.log ++ [Call.SDL_ShowCursor]⟩)

/-- Embedding of `hide_cursor(module, unused)`. -/
def hide_cursor (E : CursorEnv σ) (w : World σ) : PyResult × World σ :=
  if !(E.SDL_HideCursor w.st).1 then
    (PyResult.raised PyExc.RuntimeError,
      ⟨(E.SDL_HideCursor w.st).2, w.log ++ [Call.SDL_HideCursor]⟩)
  else (PyResult.ok PyObj.None, ⟨(E.SDL_HideCursor w.st).2, w.log ++ [Call.SDL_HideCursor]⟩)

/-- The C functions that `module_PyMethodDef` refers to. -/
inductive CFunction where
  | initialize_sdl
  | deinitialize_sdl
  | create_sdl_window
  | delete_sdl_window
  | show_sdl_window
  | hide_sdl_window
  | set_sdl_window_size
  | center_sdl_window
  | swap_sdl_window
  | enable_sdl_window_text_input
  | disable_sdl_window_text_input
  | create_sdl_gl_context
  | delete_sdl_gl_context
  | get_gl_attrs
  | set_clipboard
  | get_clipboard
  | clear_sdl_events
  | push_sdl_event
  | get_sdl_event
  | show_cursor
  | hide_cursor
  deriving DecidableEq, Repr

/-- The calling conventions used in `module_PyMethodDef`. -/
inductive METH where
  | METH_NOARGS
  | METH_O
  | METH_FASTCALL
  deriving DecidableEq, Repr

/-- The table `module_PyMethodDef`, entry by entry: exported name, function
pointer, calling convention. -/
def module_PyMethodDef : List (String × CFunction × METH) :=
  [("initialize_sdl", CFunction.initialize_sdl, METH.METH_NOARGS),
   ("deinitialize_sdl", CFunction.deinitialize_sdl, METH.METH_NOARGS),
   ("create_sdl_window", CFunction.create_sdl_window, METH.METH_NOARGS),
   ("delete_sdl_window", CFunction.delete_sdl_window, METH.METH_O),
   ("show_sdl_window", CFunction.show_sdl_window, METH.METH_O),
   ("hide_sdl_window", CFunction.hide_sdl_window, METH.METH_O),
   ("set_sdl_window_size", CFunction.set_sdl_window_size, METH.METH_FASTCALL),
   ("center_sdl_window", CFunction.center_sdl_window, METH.METH_O),
   ("swap_sdl_window", CFunction.swap_sdl_window, METH.METH_FASTCALL),
   ("enable_sdl_window_text_input", CFunction.enable_sdl_window_text_input,
     METH.METH_FASTCALL),
   ("disable_sdl_window_text_input", CFunction.disable_sdl_window_text_input, METH.METH_O),
   ("create_sdl_gl_context", CFunction.create_sdl_gl_context, METH.METH_O),
   ("delete_sdl_gl_context", CFunction.delete_sdl_gl_context, METH.METH_O),
   ("get_gl_attrs", CFunction.get_gl_attrs, METH.METH_NOARGS),
   ("set_clipboard", CFunction.set_clipboard, METH.METH_O),
   ("get_clipboard", CFunction.get_clipboard, METH.METH_NOARGS),
   ("clear_sdl_events", CFunction.clear_sdl_events, METH.METH_NOARGS),
   ("push_sdl_event", CFunction.push_sdl_event, METH.METH_FASTCALL),
   ("get_sdl_event", CFunction.get_sdl_event, METH.METH_NOARGS),
   ("show_cursor", CFunction.get_clipboard, METH.METH_NOARGS),
   ("hide_cursor", CFunction.get_sdl_event, METH.METH_NOARGS)]

/-- The name of a C function. -/
def CFunction.name (f : CFunction) : String :=
  match f with
  | CFunction.initialize_sdl => "initialize_sdl"
  | CFunction.deinitialize_sdl => "deinitialize_sdl"
  | CFunction.create_sdl_window => "create_sdl_window"
  | CFunction.delete_sdl_window => "delete_sdl_window"
  | CFunction.show_sdl_window => "show_sdl_window"
  | CFunction.hide_sdl_window => "hide_sdl_window"
  | CFunction.set_sdl_window_size => "set_sdl_window_size"
  | CFunction.center_sdl_window => "center_sdl_window"
  | CFunction.swap_sdl_window => "swap_sdl_window"
  | CFunction.enable_sdl_window_text_input => "enable_sdl_window_text_input"
  | CFunction.disable_sdl_window_text_input => "disable_sdl_window_text_input"
  | CFunction.create_sdl_gl_context => "create_sdl_gl_context"
  | CFunction.delete_sdl_gl_context => "delete_sdl_gl_context"
  | CFunction.get_gl_attrs => "get_gl_attrs"
  | CFunction.set_clipboard => "set_clipboard"
  | CFunction.get_clipboard => "get_clipboard"
  | CFunction.clear_sdl_events => "clear_sdl_events"
  | CFunction.push_sdl_event => "push_sdl_event"
  | CFunction.get_sdl_event => "get_sdl_event"
  | CFunction.show_cursor => "show_cursor"
  | CFunction.hide_cursor => "hide_cursor"

/-- The native calls behind the functions that take no argument. -/
structure ModuleEnv (σ : Type) where
  clipboard : ClipEnv σ
  events : EventEnv σ
  cursor : CursorEnv σ

/-- Running a C function as a `METH_NOARGS` method; `none` for a function that
is not embedded here as one. -/
def call_noargs (M : ModuleEnv σ) (f : CFunction) (w : World σ) :
    Option (PyResult × World σ) :=
  match f with
  | CFunction.get_clipboard => some (get_clipboard M.clipboard w)
  | CFunction.get_sdl_event => some (get_sdl_event M.events w)
  | CFunction.show_cursor => some (show_cursor M.cursor w)
  | CFunction.hide_cursor => some (hide_cursor M.cursor w)
  | _ => none

/-- The function pointer registered under an exported name. -/
def module_function (name : String) : Option CFunction :=
  (module_PyMethodDef.lookup name).map (fun entry => entry.1)

/-- Calling the module attribute `name` without arguments: the runtime calls
the function pointer registered under that name. -/
def call_module_noargs (M : ModuleEnv σ) (name : String) (w : World σ) :
    Option (PyResult × World σ) :=
  match module_function name with
  | some f => call_noargs M f w
  | none => none

/-- A module environment with an empty clipboard text, an empty event queue
and cursor calls that succeed. -/
def quietModule : ModuleEnv Unit where
  clipboard :=
    { SDL_SetClipboardText := fun s _ => (true, s),
      SDL_GetClipboardText := fun s => (some [], s),
      SDL_HasClipboardText := fun s => (false, s) }
  events :=
    { SDL_PushEvent := fun s _ => (true, s),
      SDL_PollEvent := fun s => (none, s),
      EMathApi_Get := fun s => (none, s),
      EMathApi_Release := fun s => s,
      IVector2_Create := fun s _ _ => (none, s) }
  cursor :=
    { SDL_ShowCursor := fun s => (true, s),
      SDL_HideCursor := fun s => (true, s) }

/-- A native library that accepts every attribute and creates the context 7,
with a runtime that fails to wrap it in a capsule and a destroy call that
reports failure every time. -/
def undestroyableGL : GLEnv Unit where
  SDL_GL_SetSwapInterval := fun s _ => (true, s)
  SDL_GL_SwapWindow := fun s _ => (true, s)
  SDL_GL_SetAttribute := fun s _ _ => (true, s)
  SDL_GL_CreateContext := fun s _ => (7, s)
  SDL_GL_DestroyContext := fun s _ => (false, s)
  PyCapsule_New := fun s _ _ => (false, s)

/-- The acquisitions and releases of the vector-math API in a log, in order. -/
def emath_calls (log : List Call) : List Call :=
  log.filter (fun c => decide (c = Call.EMathApi_Get ∨ c = Call.EMathApi_Release))

/-- The acquisitions and releases a function made are balanced: none at all, or
one acquisition that failed and no release, or one acquisition that succeeded
followed by exactly one release.  `acquired` says whether `EMathApi_Get`
succeeds in the state in which the function calls it. -/
def emath_balanced (acquired : Bool) (calls : List Call) : Prop :=
  calls = [] ∨ (calls = [Call.EMathApi_Get] ∧ acquired = false) ∨
  (calls = [Call.EMathApi_Get, Call.EMathApi_Release] ∧ acquired = true)

/-- An event queue that always yields a window-resized record of size (3, 4),
with a vector-math API whose calls succeed. -/
def resizingEvents : EventEnv Unit where
  SDL_PushEvent := fun s _ => (true, s)
  SDL_PollEvent := fun s =>
    (some { zeroEvent with type := SDL_EVENT_WINDOW_RESIZED, window_data1 := 3,
                           window_data2 := 4 }, s)
  EMathApi_Get := fun s => (none, s)
  EMathApi_Release := fun s => s
  IVector2_Create := fun s _ _ => (none, s)

/-! ## Theorems -/

/-- A value in the range of a C `int` is unchanged by conversion to `int`. -/
theorem toCInt_of_int (n : Int) (hlo : INT_MIN ≤ n) (hhi : n ≤ INT_MAX) : toCInt n = n := by
  unfold toCInt
  unfold INT_MIN at hlo
  unfold INT_MAX at hhi
  omega

/-- C1: for a valid window capsule, an interval `sync` in the C `int` range and
any native library, `swap_sdl_window` terminates (two units of fuel suffice)
and returns `None`; the calls it makes are: the request for `sync`; if that is
rejected and `sync` is -1, a second request for interval 1; and the buffer swap
exactly when one of the requests was accepted. -/
theorem swap_sdl_window_negotiates (E : GLEnv σ) (w : World σ) (window : Nat) (sync : Int)
    (fuel : Nat) (hwin : window ≠ 0) (hlo : INT_MIN ≤ sync) (hhi : sync ≤ INT_MAX)
    (hfuel : 2 ≤ fuel) :
    (swap_sdl_window E fuel w
        [PyObj.capsule "_eplatform.SDL_Window" window, PyObj.int sync]).map
      (fun r => (r.1, r.2.log))
    = some (PyResult.ok PyObj.None, w.log ++
        (if (E.SDL_GL_SetSwapInterval w.st sync).1 then
          [Call.SDL_GL_SetSwapInterval sync, Call.SDL_GL_SwapWindow window]
        else if sync = -1 then
          (if (E.SDL_GL_SetSwapInterval (E.SDL_GL_SetSwapInterval w.st sync).2 1).1 then
            [Call.SDL_GL_SetSwapInterval sync, Call.SDL_GL_SetSwapInterval 1,
              Call.SDL_GL_SwapWindow window]
          else [Call.SDL_GL_SetSwapInterval sync, Call.SDL_GL_SetSwapInterval 1])
        else [Call.SDL_GL_SetSwapInterval sync])) := by
  obtain ⟨k, rfl⟩ : ∃ k, fuel = k + 2 := ⟨fuel - 2, by omega⟩
  have hlong : LONG_MIN ≤ sync ∧ sync ≤ LONG_MAX := by
    unfold INT_MIN at hlo
    unfold INT_MAX at hhi
    unfold LONG_MIN LONG_MAX
    omega
  have hc : toCInt sync = sync := toCInt_of_int sync hlo hhi
  have h1 : toCInt 1 = 1 := by decide
  simp only [swap_sdl_window, PyCapsule_GetPointer, PyLong_AsLong, List.length_cons,
    List.length_nil, List.getD_cons_zero, List.getD_cons_succ, hlong, and_self, if_true,
    hwin, if_false, swap_loop, hc, h1, GLEnv.setSwapInterval, GLEnv.swapWindow,
    Option.isSome_none, Bool.false_eq_true, and_false, ne_eq, Nat.zero_add, Nat.reduceAdd,
    not_true_eq_false]
  by_cases hr1 : (E.SDL_GL_SetSwapInterval w.st sync).1 = true
  · simp [hr1]
  · by_cases hs : sync = -1
    · subst hs
      by_cases hr2 : (E.SDL_GL_SetSwapInterval (E.SDL_GL_SetSwapInterval w.st (-1)).2 1).1 = true
      · simp [hr1, hr2]
      · simp [hr1, hr2]
    · simp [hr1, hs]

/-- Witness of C1: adaptive vsync (-1) against a library that rejects every
interval makes the two requests and no swap. -/
theorem swap_sdl_window_negotiates_witness :
    (1 ≠ 0 ∧ INT_MIN ≤ (-1 : Int) ∧ (-1 : Int) ≤ INT_MAX ∧ 2 ≤ 2) ∧
    (swap_sdl_window refusingGL 2 ⟨(), []⟩
        [PyObj.capsule "_eplatform.SDL_Window" 1, PyObj.int (-1)]).map
      (fun r => (r.1, r.2.log))
    = some (PyResult.ok PyObj.None,
        [Call.SDL_GL_SetSwapInterval (-1), Call.SDL_GL_SetSwapInterval 1]) :=
  ⟨by decide,
    swap_sdl_window_negotiates refusingGL ⟨(), []⟩ 1 (-1) 2 (by decide) (by decide) (by decide)
      (by decide)⟩

/-- C2, the code at the failing input: when the native library creates no
context, `create_sdl_gl_context` does not stop after the tenth attempt with a
`RuntimeError`; after ten `SDL_GL_CreateContext` calls it goes on to an
eleventh iteration, whose read of `gl_versions` is outside the table. -/
theorem create_sdl_gl_context_refused_is_undefined (fuel : Nat) :
    (create_sdl_gl_context refusingGL fuel ⟨(), []⟩
        (PyObj.capsule "_eplatform.SDL_Window" 1)).map
      (fun r => (r.1, (r.2.log.filter (fun c => c = Call.SDL_GL_CreateContext 1)).length))
    = some (PyResult.undefined, 10) :=
  rfl

/-- C3, the code at the failing input: on the first attempt the minor number 6
is written to the context-major-version attribute (after the major number 4);
the context-minor-version attribute is never set. -/
theorem create_sdl_gl_context_first_attempt_calls (fuel : Nat) :
    (create_sdl_gl_context acceptingGL fuel ⟨(), []⟩
        (PyObj.capsule "_eplatform.SDL_Window" 1)).map (fun r => r.2.log)
    = some [Call.SDL_GL_SetAttribute SDL_GLAttr.SDL_GL_CONTEXT_PROFILE_MASK 1,
        Call.gl_versions_read 0,
        Call.SDL_GL_SetAttribute SDL_GLAttr.SDL_GL_CONTEXT_MAJOR_VERSION 4,
        Call.SDL_GL_SetAttribute SDL_GLAttr.SDL_GL_CONTEXT_MAJOR_VERSION 6,
        Call.SDL_GL_CreateContext 1,
        Call.PyCapsule_New 7 "_eplatform.SDL_GLContext"] :=
  rfl

/-- C4, the code at the failing input: the table has 10 entries but the loop
bound evaluates to 40, and when every attempt fails the indices read from
`gl_versions` are 0 to 10, the last one past the end of the table. -/
theorem gl_loop_reads_past_table (fuel : Nat) :
    gl_versions.length = 10 ∧ gl_loop_bound = 40 ∧
    (create_sdl_gl_context refusingGL fuel ⟨(), []⟩
        (PyObj.capsule "_eplatform.SDL_Window" 1)).map
      (fun r => r.2.log.filterMap Call.readIndex)
    = some [0, 1, 2, 3, 4, 5, 6, 7, 8, 9, 10] :=
  ⟨rfl, rfl, rfl⟩


/-! ### Marshalling lemmas -/

theorem PyLong_AsLong_checked_int (n : Int) (hlo : INT_MIN ≤ n) (hhi : n ≤ INT_MAX) :
    PyLong_AsLong_checked (PyObj.int n) = Except.ok n := by
  have hlong : LONG_MIN ≤ n ∧ n ≤ LONG_MAX := by
    unfold INT_MIN at hlo
    unfold INT_MAX at hhi
    unfold LONG_MIN LONG_MAX
    omega
  simp [PyLong_AsLong_checked, PyLong_AsLong, hlong]

theorem PyLong_AsLong_checked_type (t : Nat) (ht : t < 2147483648) :
    PyLong_AsLong_checked (PyObj.int (t : Int)) = Except.ok (t : Int) := by
  apply PyLong_AsLong_checked_int
  · unfold INT_MIN
    omega
  · unfold INT_MAX
    omega

theorem toUint32_natCast (t : Nat) (ht : t < 2147483648) : toUint32 (t : Int) = t := by
  unfold toUint32
  omega

theorem toCInt_natCast (t : Nat) (ht : t < 2147483648) : toCInt (t : Int) = (t : Int) := by
  unfold toCInt
  omega

theorem is_Py_True_bool (b : Bool) : is_Py_True (PyObj.bool b) = b := by
  cases b <;> rfl

/-! ### `get_sdl_event`, case by case -/

theorem get_sdl_event_none (E : EventEnv σ) (w : World σ)
    (hpoll : (E.SDL_PollEvent w.st).1 = none) :
    (get_sdl_event E w).1 = PyResult.ok PyObj.None := by
  simp only [get_sdl_event, EventEnv.pollEvent, hpoll]

theorem get_sdl_event_key_case (E : EventEnv σ) (w : World σ) (event : SDL_Event)
    (hpoll : (E.SDL_PollEvent w.st).1 = some event)
    (ht : event.type = SDL_EVENT_KEY_DOWN ∨ event.type = SDL_EVENT_KEY_UP) :
    (get_sdl_event E w).1 = PyResult.ok (PyObj.tuple
      [PyObj.int (toCInt event.type), PyObj.int (toCInt event.key_scancode),
       PyObj.bool event.key_down, PyObj.bool event.key_repeat]) := by
  simp only [get_sdl_event, EventEnv.pollEvent, hpoll]
  rcases ht with h | h <;> rw [h] <;> rfl

theorem get_sdl_event_button_case (E : EventEnv σ) (w : World σ) (event : SDL_Event)
    (hpoll : (E.SDL_PollEvent w.st).1 = some event)
    (ht : event.type = SDL_EVENT_MOUSE_BUTTON_DOWN ∨ event.type = SDL_EVENT_MOUSE_BUTTON_UP) :
    (get_sdl_event E w).1 = PyResult.ok (PyObj.tuple
      [PyObj.int (toCInt event.type), PyObj.int (toUint8 event.button_button),
       PyObj.bool event.button_down]) := by
  simp only [get_sdl_event, EventEnv.pollEvent, hpoll]
  rcases ht with h | h <;> rw [h] <;> rfl

theorem get_sdl_event_text_case (E : EventEnv σ) (w : World σ) (event : SDL_Event)
    (hpoll : (E.SDL_PollEvent w.st).1 = some event)
    (ht : event.type = SDL_EVENT_TEXT_INPUT) :
    (get_sdl_event E w).1 =
      match Py_BuildValue_s event.text_text with
      | PyResult.ok text => PyResult.ok (PyObj.tuple [PyObj.int (toCInt event.type), text])
      | failure => failure := by
  simp only [get_sdl_event, EventEnv.pollEvent, hpoll]
  rw [ht]
  simp only [SDL_EVENT_TEXT_INPUT, SDL_EVENT_MOUSE_MOTION, SDL_EVENT_MOUSE_WHEEL,
    SDL_EVENT_MOUSE_BUTTON_DOWN, SDL_EVENT_MOUSE_BUTTON_UP, SDL_EVENT_KEY_DOWN,
    SDL_EVENT_KEY_UP, Nat.reduceEqDiff, or_self, if_false, if_true]
  cases Py_BuildValue_s event.text_text <;> rfl

theorem get_sdl_event_other_case (E : EventEnv σ) (w : World σ) (event : SDL_Event)
    (hpoll : (E.SDL_PollEvent w.st).1 = some event)
    (h1 : event.type ≠ SDL_EVENT_MOUSE_MOTION) (h2 : event.type ≠ SDL_EVENT_MOUSE_WHEEL)
    (h3 : event.type ≠ SDL_EVENT_MOUSE_BUTTON_DOWN) (h4 : event.type ≠ SDL_EVENT_MOUSE_BUTTON_UP)
    (h5 : event.type ≠ SDL_EVENT_KEY_DOWN) (h6 : event.type ≠ SDL_EVENT_KEY_UP)
    (h7 : event.type ≠ SDL_EVENT_TEXT_INPUT) (h8 : event.type ≠ SDL_EVENT_WINDOW_RESIZED) :
    (get_sdl_event E w).1 = PyResult.ok (PyObj.tuple [PyObj.int (toCInt event.type)]) := by
  simp only [get_sdl_event, EventEnv.pollEvent, hpoll, h1, h2, h3, h4, h5, h6, h7, h8,
    or_self, if_false]

theorem get_sdl_event_motion_case (E : EventEnv σ) (w : World σ) (event : SDL_Event)
    (px py dx dy : Int)
    (hpoll : (E.SDL_PollEvent w.st).1 = some event)
    (ht : event.type = SDL_EVENT_MOUSE_MOTION)
    (hget : ∀ s, (E.EMathApi_Get s).1 = none)
    (hcreate : ∀ s x y, (E.IVector2_Create s x y).1 = none)
    (hpx : f32_to_int event.motion_x = some px) (hpy : f32_to_int event.motion_y = some py)
    (hdx : f32_to_int event.motion_xrel = some dx)
    (hdy : f32_to_int event.motion_yrel = some dy) :
    (get_sdl_event E w).1 = PyResult.ok (PyObj.tuple
      [PyObj.int (toCInt event.type), PyObj.IVector2 px py, PyObj.IVector2 dx dy]) := by
  simp only [get_sdl_event, EventEnv.pollEvent, hpoll, ht, if_true, get_sdl_event_motion,
    EventEnv.emathGet, hget, hpx, hpy, EventEnv.ivector2Create, hcreate, hdx, hdy]

theorem get_sdl_event_wheel_case (E : EventEnv σ) (w : World σ) (event : SDL_Event)
    (x y : Int)
    (hpoll : (E.SDL_PollEvent w.st).1 = some event)
    (ht : event.type = SDL_EVENT_MOUSE_WHEEL)
    (hget : ∀ s, (E.EMathApi_Get s).1 = none)
    (hcreate : ∀ s x y, (E.IVector2_Create s x y).1 = none)
    (hx : f32_to_int event.wheel_x = some x) (hy : f32_to_int event.wheel_y = some y) :
    (get_sdl_event E w).1 = PyResult.ok (PyObj.tuple
      [PyObj.int (toCInt event.type),
       PyObj.IVector2
         (toCInt (x * if event.wheel_direction = SDL_MOUSEWHEEL_FLIPPED then -1 else 1))
         (toCInt (y * if event.wheel_direction = SDL_MOUSEWHEEL_FLIPPED then -1 else 1))]) := by
  have h1 : SDL_EVENT_MOUSE_WHEEL ≠ SDL_EVENT_MOUSE_MOTION := by decide
  simp only [get_sdl_event, EventEnv.pollEvent, hpoll, ht, h1, if_true, if_false,
    get_sdl_event_wheel, EventEnv.emathGet, hget, hx, hy, EventEnv.ivector2Create, hcreate]

theorem get_sdl_event_resized_case (E : EventEnv σ) (w : World σ) (event : SDL_Event)
    (hpoll : (E.SDL_PollEvent w.st).1 = some event)
    (ht : event.type = SDL_EVENT_WINDOW_RESIZED)
    (hget : ∀ s, (E.EMathApi_Get s).1 = none)
    (hcreate : ∀ s x y, (E.IVector2_Create s x y).1 = none) :
    (get_sdl_event E w).1 = PyResult.ok (PyObj.tuple
      [PyObj.int (toCInt event.type),
       PyObj.IVector2 (toCInt event.window_data1) (toCInt event.window_data2)]) := by
  simp only [get_sdl_event, EventEnv.pollEvent, hpoll]
  rw [ht]
  simp only [SDL_EVENT_TEXT_INPUT, SDL_EVENT_MOUSE_MOTION, SDL_EVENT_MOUSE_WHEEL,
    SDL_EVENT_MOUSE_BUTTON_DOWN, SDL_EVENT_MOUSE_BUTTON_UP, SDL_EVENT_KEY_DOWN,
    SDL_EVENT_KEY_UP, SDL_EVENT_WINDOW_RESIZED, Nat.reduceEqDiff, or_self, if_false, if_true,
    get_sdl_event_resized, EventEnv.emathGet, hget, EventEnv.ivector2Create, hcreate, ht]


/-! ### Floats that hold integers -/

theorem f32_round_nat_exact (m : Nat) (hm : m ≤ 16777216) : f32_round_nat m = m := by
  by_cases h : m < 16777216
  · simp [f32_round_nat, f32_excess_bits, h, Nat.mod_one]
  · have : m = 16777216 := by omega
    subst this
    decide

theorem f32_of_long_exact (n : Int) (hlo : -16777216 ≤ n) (hhi : n ≤ 16777216) :
    f32_of_long n = F32.finite n 0 := by
  have hm : n.natAbs ≤ 16777216 := by omega
  simp only [f32_of_long, f32_round_nat_exact n.natAbs hm, Int.sign_mul_natAbs]

theorem f32_to_int_finite (n : Int) (hlo : INT_MIN ≤ n) (hhi : n ≤ INT_MAX) :
    f32_to_int (F32.finite n 0) = some n := by
  simp [f32_to_int, F32.trunc, hlo, hhi]

theorem f32_to_int_of_long (n : Int) (hlo : -16777216 ≤ n) (hhi : n ≤ 16777216) :
    f32_to_int (f32_of_long n) = some n := by
  rw [f32_of_long_exact n hlo hhi]
  apply f32_to_int_finite
  · unfold INT_MIN
    omega
  · unfold INT_MAX
    omega

/-! ### `push_sdl_event` on the first-in-first-out queue -/

theorem push_then_get_of_fill (uninit event : SDL_Event) (args : List PyObj)
    (hargs : args.length ≠ 0) (hfill : push_sdl_event_fill uninit args = Except.ok event) :
    push_then_get uninit args =
      (PyResult.ok PyObj.None,
       (get_sdl_event fifoEvents ⟨[event], [Call.SDL_PushEvent event]⟩).1) := by
  simp [push_then_get, push_sdl_event, hargs, hfill, EventEnv.pushEvent, fifoEvents]

theorem push_sdl_event_fill_type (uninit : SDL_Event) (t : Nat) (rest : List PyObj)
    (ht : t < 2147483648) :
    push_sdl_event_fill uninit (PyObj.int (t : Int) :: rest) =
      push_sdl_event_switch { uninit with type := t } (PyObj.int (t : Int) :: rest) := by
  simp only [push_sdl_event_fill, List.getD_cons_zero, PyLong_AsLong_checked_type t ht,
    toUint32_natCast t ht]

theorem push_sdl_event_switch_key (event : SDL_Event) (args : List PyObj)
    (ht : event.type = SDL_EVENT_KEY_DOWN ∨ event.type = SDL_EVENT_KEY_UP) :
    push_sdl_event_switch event args = push_sdl_event_key event args := by
  unfold push_sdl_event_switch
  rcases ht with h | h <;> rw [h] <;> rfl

theorem push_sdl_event_switch_button (event : SDL_Event) (args : List PyObj)
    (ht : event.type = SDL_EVENT_MOUSE_BUTTON_DOWN ∨ event.type = SDL_EVENT_MOUSE_BUTTON_UP) :
    push_sdl_event_switch event args = push_sdl_event_button event args := by
  unfold push_sdl_event_switch
  rcases ht with h | h <;> rw [h] <;> rfl

theorem push_sdl_event_switch_resized (event : SDL_Event) (args : List PyObj)
    (ht : event.type = SDL_EVENT_WINDOW_RESIZED) :
    push_sdl_event_switch event args = push_sdl_event_resized event args := by
  unfold push_sdl_event_switch
  rw [ht]
  rfl

theorem push_sdl_event_switch_motion (event : SDL_Event) (args : List PyObj)
    (ht : event.type = SDL_EVENT_MOUSE_MOTION) :
    push_sdl_event_switch event args = push_sdl_event_motion event args := by
  unfold push_sdl_event_switch
  rw [ht]
  rfl

theorem push_sdl_event_switch_wheel (event : SDL_Event) (args : List PyObj)
    (ht : event.type = SDL_EVENT_MOUSE_WHEEL) :
    push_sdl_event_switch event args = push_sdl_event_wheel event args := by
  unfold push_sdl_event_switch
  rw [ht]
  rfl

theorem push_sdl_event_key_ok (event : SDL_Event) (t : PyObj) (scancode : Int)
    (down key_repeat : Bool) (hlo : INT_MIN ≤ scancode) (hhi : scancode ≤ INT_MAX) :
    push_sdl_event_key event [t, PyObj.int scancode, PyObj.bool down, PyObj.bool key_repeat] =
      Except.ok { event with key_scancode := scancode, key_down := down,
                             key_repeat := key_repeat } := by
  simp only [push_sdl_event_key, CHECK_UNEXPECTED_ARG_COUNT_ERROR, List.length_cons,
    List.length_nil, List.getD_cons_zero, List.getD_cons_succ,
    PyLong_AsLong_checked_int scancode hlo hhi, toCInt_of_int scancode hlo hhi,
    is_Py_True_bool, bind, Except.bind, pure, Except.pure]
  rfl

theorem toUint8_of_byte (n : Int) (hlo : 0 ≤ n) (hhi : n ≤ 255) : (toUint8 n : Int) = n := by
  unfold toUint8
  omega

theorem push_sdl_event_button_ok (event : SDL_Event) (t : PyObj) (button : Int)
    (down : Bool) (hlo : 0 ≤ button) (hhi : button ≤ 255) :
    push_sdl_event_button event [t, PyObj.int button, PyObj.bool down] =
      Except.ok { event with button_button := toUint8 button, button_down := down } := by
  have h1 : INT_MIN ≤ button := by
    unfold INT_MIN
    omega
  have h2 : button ≤ INT_MAX := by
    unfold INT_MAX
    omega
  simp only [push_sdl_event_button, CHECK_UNEXPECTED_ARG_COUNT_ERROR, List.length_cons,
    List.length_nil, List.getD_cons_zero, List.getD_cons_succ,
    PyLong_AsLong_checked_int button h1 h2,
    is_Py_True_bool, bind, Except.bind, pure, Except.pure]
  rfl

theorem push_sdl_event_resized_ok (event : SDL_Event) (t : PyObj) (width height : Int)
    (hw : INT_MIN ≤ width ∧ width ≤ INT_MAX) (hh : INT_MIN ≤ height ∧ height ≤ INT_MAX) :
    push_sdl_event_resized event [t, PyObj.int width, PyObj.int height] =
      Except.ok { event with window_data1 := width, window_data2 := height } := by
  simp only [push_sdl_event_resized, CHECK_UNEXPECTED_ARG_COUNT_ERROR, List.length_cons,
    List.length_nil, List.getD_cons_zero, List.getD_cons_succ,
    PyLong_AsLong_checked_int width hw.1 hw.2, PyLong_AsLong_checked_int height hh.1 hh.2,
    toCInt_of_int width hw.1 hw.2, toCInt_of_int height hh.1 hh.2,
    bind, Except.bind, pure, Except.pure]
  rfl


theorem push_sdl_event_motion_ok (event : SDL_Event) (t : PyObj) (x y xrel yrel : Int)
    (hx : -16777216 ≤ x ∧ x ≤ 16777216) (hy : -16777216 ≤ y ∧ y ≤ 16777216)
    (hxrel : -16777216 ≤ xrel ∧ xrel ≤ 16777216)
    (hyrel : -16777216 ≤ yrel ∧ yrel ≤ 16777216) :
    push_sdl_event_motion event
        [t, PyObj.int x, PyObj.int y, PyObj.int xrel, PyObj.int yrel] =
      Except.ok { event with motion_x := F32.finite x 0, motion_y := F32.finite y 0,
                             motion_xrel := F32.finite xrel 0,
                             motion_yrel := F32.finite yrel 0 } := by
  have key : ∀ n : Int, -16777216 ≤ n ∧ n ≤ 16777216 →
      PyLong_AsLong_checked (PyObj.int n) = Except.ok n := by
    intro n hn
    apply PyLong_AsLong_checked_int
    · unfold INT_MIN
      omega
    · unfold INT_MAX
      omega
  simp only [push_sdl_event_motion, CHECK_UNEXPECTED_ARG_COUNT_ERROR, List.length_cons,
    List.length_nil, List.getD_cons_zero, List.getD_cons_succ, key x hx, key y hy,
    key xrel hxrel, key yrel hyrel, f32_of_long_exact x hx.1 hx.2,
    f32_of_long_exact y hy.1 hy.2, f32_of_long_exact xrel hxrel.1 hxrel.2,
    f32_of_long_exact yrel hyrel.1 hyrel.2, bind, Except.bind, pure, Except.pure]
  rfl

theorem push_sdl_event_wheel_ok (event : SDL_Event) (t flipped : PyObj) (x y : Int)
    (hx : -16777216 ≤ x ∧ x ≤ 16777216) (hy : -16777216 ≤ y ∧ y ≤ 16777216) :
    push_sdl_event_wheel event [t, flipped, PyObj.int x, PyObj.int y] =
      Except.ok { event with
        wheel_direction :=
          if is_Py_True flipped then SDL_MOUSEWHEEL_FLIPPED else SDL_MOUSEWHEEL_NORMAL,
        wheel_x := F32.finite x 0, wheel_y := F32.finite y 0 } := by
  have key : ∀ n : Int, -16777216 ≤ n ∧ n ≤ 16777216 →
      PyLong_AsLong_checked (PyObj.int n) = Except.ok n := by
    intro n hn
    apply PyLong_AsLong_checked_int
    · unfold INT_MIN
      omega
    · unfold INT_MAX
      omega
  simp only [push_sdl_event_wheel, CHECK_UNEXPECTED_ARG_COUNT_ERROR, List.length_cons,
    List.length_nil, List.getD_cons_zero, List.getD_cons_succ, key x hx, key y hy,
    f32_of_long_exact x hx.1 hx.2, f32_of_long_exact y hy.1 hy.2,
    bind, Except.bind, pure, Except.pure]
  rfl

theorem fifoEvents_get_ok (queue : List SDL_Event) : (fifoEvents.EMathApi_Get queue).1 = none :=
  rfl

theorem fifoEvents_create_ok (queue : List SDL_Event) (x y : Int) :
    (fifoEvents.IVector2_Create queue x y).1 = none :=
  rfl

/-! ### C6, C7 -/

/-- C6: on an empty first-in-first-out event queue, `push_sdl_event` followed by
`get_sdl_event` returns the pushed values: `(type, scancode, down, repeat)` for
a key event with a scancode in the C `int` range, `(type, button, down)` for a
mouse-button event with a button in 0..255, and `(type, IVector2(w, h))` for a
window-resized event with `w`, `h` in the signed 32-bit range. -/
theorem push_get_same_fields (uninit : SDL_Event) (key_type button_type : Nat)
    (scancode button width height : Int) (down key_repeat : Bool)
    (hkey : key_type = SDL_EVENT_KEY_DOWN ∨ key_type = SDL_EVENT_KEY_UP)
    (hscancode : INT_MIN ≤ scancode ∧ scancode ≤ INT_MAX)
    (hbutton_type : button_type = SDL_EVENT_MOUSE_BUTTON_DOWN ∨
      button_type = SDL_EVENT_MOUSE_BUTTON_UP)
    (hbutton : 0 ≤ button ∧ button ≤ 255)
    (hwidth : INT_MIN ≤ width ∧ width ≤ INT_MAX)
    (hheight : INT_MIN ≤ height ∧ height ≤ INT_MAX) :
    push_then_get uninit
        [PyObj.int key_type, PyObj.int scancode, PyObj.bool down, PyObj.bool key_repeat]
      = (PyResult.ok PyObj.None, PyResult.ok (PyObj.tuple
          [PyObj.int key_type, PyObj.int scancode, PyObj.bool down, PyObj.bool key_repeat])) ∧
    push_then_get uninit [PyObj.int button_type, PyObj.int button, PyObj.bool down]
      = (PyResult.ok PyObj.None, PyResult.ok (PyObj.tuple
          [PyObj.int button_type, PyObj.int button, PyObj.bool down])) ∧
    push_then_get uninit
        [PyObj.int SDL_EVENT_WINDOW_RESIZED, PyObj.int width, PyObj.int height]
      = (PyResult.ok PyObj.None, PyResult.ok (PyObj.tuple
          [PyObj.int SDL_EVENT_WINDOW_RESIZED, PyObj.IVector2 width height])) := by
  have hk31 : key_type < 2147483648 := by
    rcases hkey with h | h <;> rw [h] <;> decide
  have hb31 : button_type < 2147483648 := by
    rcases hbutton_type with h | h <;> rw [h] <;> decide
  have hr31 : SDL_EVENT_WINDOW_RESIZED < 2147483648 := by decide
  refine ⟨?_, ?_, ?_⟩
  · rw [push_then_get_of_fill uninit _ _ (by simp)
      ((push_sdl_event_fill_type uninit key_type _ hk31).trans
        ((push_sdl_event_switch_key _ _ hkey).trans
          (push_sdl_event_key_ok _ _ scancode down key_repeat hscancode.1 hscancode.2)))]
    rw [get_sdl_event_key_case fifoEvents ⟨[_], _⟩ _ rfl hkey]
    simp only [toCInt_natCast key_type hk31, toCInt_of_int scancode hscancode.1 hscancode.2]
  · rw [push_then_get_of_fill uninit _ _ (by simp)
      ((push_sdl_event_fill_type uninit button_type _ hb31).trans
        ((push_sdl_event_switch_button _ _ hbutton_type).trans
          (push_sdl_event_button_ok _ _ button down hbutton.1 hbutton.2)))]
    rw [get_sdl_event_button_case fifoEvents ⟨[_], _⟩ _ rfl hbutton_type]
    have h8 : toUint8 ((toUint8 button : Nat) : Int) = toUint8 button := by
      unfold toUint8
      omega
    simp only [toCInt_natCast button_type hb31, h8, toUint8_of_byte button hbutton.1 hbutton.2]
  · rw [push_then_get_of_fill uninit _ _ (by simp)
      ((push_sdl_event_fill_type uninit SDL_EVENT_WINDOW_RESIZED _ hr31).trans
        ((push_sdl_event_switch_resized _ _ rfl).trans
          (push_sdl_event_resized_ok _ _ width height hwidth hheight)))]
    rw [get_sdl_event_resized_case fifoEvents ⟨[_], _⟩ _ rfl rfl fifoEvents_get_ok
      fifoEvents_create_ok]
    simp only [toCInt_natCast SDL_EVENT_WINDOW_RESIZED hr31,
      toCInt_of_int width hwidth.1 hwidth.2, toCInt_of_int height hheight.1 hheight.2]

/-- C7: on an empty first-in-first-out event queue, a mouse-motion event pushed
with integer coordinates of magnitude at most 2^24 comes back from
`get_sdl_event` with the same position and delta. -/
theorem push_get_mouse_motion (uninit : SDL_Event) (x y xrel yrel : Int)
    (hx : -16777216 ≤ x ∧ x ≤ 16777216) (hy : -16777216 ≤ y ∧ y ≤ 16777216)
    (hxrel : -16777216 ≤ xrel ∧ xrel ≤ 16777216)
    (hyrel : -16777216 ≤ yrel ∧ yrel ≤ 16777216) :
    push_then_get uninit
        [PyObj.int SDL_EVENT_MOUSE_MOTION, PyObj.int x, PyObj.int y, PyObj.int xrel,
          PyObj.int yrel]
      = (PyResult.ok PyObj.None, PyResult.ok (PyObj.tuple
          [PyObj.int SDL_EVENT_MOUSE_MOTION, PyObj.IVector2 x y,
            PyObj.IVector2 xrel yrel])) := by
  have h31 : SDL_EVENT_MOUSE_MOTION < 2147483648 := by decide
  have cast : ∀ n : Int, -16777216 ≤ n ∧ n ≤ 16777216 →
      f32_to_int (F32.finite n 0) = some n := by
    intro n hn
    apply f32_to_int_finite
    · unfold INT_MIN
      omega
    · unfold INT_MAX
      omega
  rw [push_then_get_of_fill uninit _ _ (by simp)
    ((push_sdl_event_fill_type uninit SDL_EVENT_MOUSE_MOTION _ h31).trans
      ((push_sdl_event_switch_motion _ _ rfl).trans
        (push_sdl_event_motion_ok _ _ x y xrel yrel hx hy hxrel hyrel)))]
  rw [get_sdl_event_motion_case fifoEvents ⟨[_], _⟩ _ x y xrel yrel rfl rfl fifoEvents_get_ok
    fifoEvents_create_ok (cast x hx) (cast y hy) (cast xrel hxrel) (cast yrel hyrel)]
  simp only [toCInt_natCast SDL_EVENT_MOUSE_MOTION h31]


/-- Witness of C6: a key-up event with scancode -5, a button-down event with
button 255 and a resize to (-1, 2^31 - 1). -/
theorem push_get_same_fields_witness :
    ((SDL_EVENT_KEY_UP = SDL_EVENT_KEY_DOWN ∨ SDL_EVENT_KEY_UP = SDL_EVENT_KEY_UP) ∧
      (INT_MIN ≤ (-5 : Int) ∧ (-5 : Int) ≤ INT_MAX) ∧
      (SDL_EVENT_MOUSE_BUTTON_DOWN = SDL_EVENT_MOUSE_BUTTON_DOWN ∨
        SDL_EVENT_MOUSE_BUTTON_DOWN = SDL_EVENT_MOUSE_BUTTON_UP) ∧
      ((0 : Int) ≤ 255 ∧ (255 : Int) ≤ 255) ∧
      (INT_MIN ≤ (-1 : Int) ∧ (-1 : Int) ≤ INT_MAX) ∧
      (INT_MIN ≤ (2147483647 : Int) ∧ (2147483647 : Int) ≤ INT_MAX)) ∧
    (push_then_get zeroEvent
        [PyObj.int SDL_EVENT_KEY_UP, PyObj.int (-5), PyObj.bool true, PyObj.bool false]
      = (PyResult.ok PyObj.None, PyResult.ok (PyObj.tuple
          [PyObj.int SDL_EVENT_KEY_UP, PyObj.int (-5), PyObj.bool true, PyObj.bool false])) ∧
    push_then_get zeroEvent
        [PyObj.int SDL_EVENT_MOUSE_BUTTON_DOWN, PyObj.int 255, PyObj.bool true]
      = (PyResult.ok PyObj.None, PyResult.ok (PyObj.tuple
          [PyObj.int SDL_EVENT_MOUSE_BUTTON_DOWN, PyObj.int 255, PyObj.bool true])) ∧
    push_then_get zeroEvent
        [PyObj.int SDL_EVENT_WINDOW_RESIZED, PyObj.int (-1), PyObj.int 2147483647]
      = (PyResult.ok PyObj.None, PyResult.ok (PyObj.tuple
          [PyObj.int SDL_EVENT_WINDOW_RESIZED, PyObj.IVector2 (-1) 2147483647]))) :=
  ⟨by decide,
    push_get_same_fields zeroEvent SDL_EVENT_KEY_UP SDL_EVENT_MOUSE_BUTTON_DOWN (-5) 255 (-1)
      2147483647 true false (by decide) (by decide) (by decide) (by decide) (by decide)
      (by decide)⟩

/-- Witness of C7: the coordinates at the two ends of the range, 2^24 and -2^24. -/
theorem push_get_mouse_motion_witness :
    (((-16777216 : Int) ≤ 16777216 ∧ (16777216 : Int) ≤ 16777216) ∧
      ((-16777216 : Int) ≤ -16777216 ∧ (-16777216 : Int) ≤ 16777216) ∧
      ((-16777216 : Int) ≤ 3 ∧ (3 : Int) ≤ 16777216) ∧
      ((-16777216 : Int) ≤ -4 ∧ (-4 : Int) ≤ 16777216)) ∧
    push_then_get zeroEvent
        [PyObj.int SDL_EVENT_MOUSE_MOTION, PyObj.int 16777216, PyObj.int (-16777216),
          PyObj.int 3, PyObj.int (-4)]
      = (PyResult.ok PyObj.None, PyResult.ok (PyObj.tuple
          [PyObj.int SDL_EVENT_MOUSE_MOTION, PyObj.IVector2 16777216 (-16777216),
            PyObj.IVector2 3 (-4)])) :=
  ⟨by decide,
    push_get_mouse_motion zeroEvent 16777216 (-16777216) 3 (-4) (by decide) (by decide)
      (by decide) (by decide)⟩

/-! ### C5 -/

/-- C8 as stated fails: for the flipped wheel record with amounts -2^31 and 0,
whose integral parts are -2^31 and 0, the claimed delta is (2^31, 0), but
`get_sdl_event` returns (-2^31, 0): the negation does not fit a C `int`.  The
record is the one `push_sdl_event(MOUSE_WHEEL, True, -2**31, 0)` pushes.  For
the normal record with amounts 2^31 and 0 the conversion to `int` is not
defined, and no `int` is the claimed 2^31. -/
theorem wheel_flipped_min_counterexample :
    flippedMinWheel.type = SDL_EVENT_MOUSE_WHEEL ∧
    flippedMinWheel.wheel_direction = SDL_MOUSEWHEEL_FLIPPED ∧
    flippedMinWheel.wheel_x.trunc = some (-2147483648) ∧
    flippedMinWheel.wheel_y.trunc = some 0 ∧
    push_sdl_event_fill zeroEvent
        [PyObj.int SDL_EVENT_MOUSE_WHEEL, PyObj.bool true, PyObj.int (-2147483648),
          PyObj.int 0] = Except.ok flippedMinWheel ∧
    (get_sdl_event fifoEvents ⟨[flippedMinWheel], []⟩).1 = PyResult.ok (PyObj.tuple
      [PyObj.int SDL_EVENT_MOUSE_WHEEL, PyObj.IVector2 (-2147483648) 0]) ∧
    (get_sdl_event fifoEvents ⟨[flippedMinWheel], []⟩).1 ≠ PyResult.ok (PyObj.tuple
      [PyObj.int SDL_EVENT_MOUSE_WHEEL, PyObj.IVector2 (-(-2147483648)) (-0)]) ∧
    hugeWheel.wheel_x.trunc = some 2147483648 ∧
    (get_sdl_event fifoEvents ⟨[hugeWheel], []⟩).1 = PyResult.undefined := by
  have hres : (get_sdl_event fifoEvents ⟨[flippedMinWheel], []⟩).1 = PyResult.ok (PyObj.tuple
      [PyObj.int SDL_EVENT_MOUSE_WHEEL, PyObj.IVector2 (-2147483648) 0]) := rfl
  refine ⟨rfl, rfl, by decide, by decide, rfl, hres, ?_, by decide, rfl⟩
  rw [hres]
  simp

/-- The negation of a C `int` other than `INT_MIN` is computed without
overflow. -/
theorem toCInt_neg (n : Int) (hlo : -2147483648 < n) (hhi : n < 2147483648) :
    toCInt (n * -1) = -n := by
  unfold toCInt
  omega

/-- C8, amended: for every mouse-wheel record whose amounts have integral parts
`x`, `y` that are C `int` values, and are not `INT_MIN` when the direction is
flipped, `get_sdl_event` returns the delta `(x, y)` when the direction is not
flipped and `(-x, -y)` when it is flipped; and on an empty first-in-first-out
queue, for integers `a`, `b` of magnitude at most 2^24,
`push_sdl_event(MOUSE_WHEEL, flipped, a, b)` followed by `get_sdl_event` returns
`(MOUSE_WHEEL, IVector2(a, b))` when `flipped` is not `True` and
`(MOUSE_WHEEL, IVector2(-a, -b))` when it is. -/
theorem wheel_delta_normalised (E : EventEnv σ) (w : World σ) (event uninit : SDL_Event)
    (x y a b : Int) (flipped : PyObj)
    (hget : ∀ s, (E.EMathApi_Get s).1 = none)
    (hcreate : ∀ s x y, (E.IVector2_Create s x y).1 = none)
    (hpoll : (E.SDL_PollEvent w.st).1 = some event)
    (ht : event.type = SDL_EVENT_MOUSE_WHEEL)
    (hx : event.wheel_x.trunc = some x) (hy : event.wheel_y.trunc = some y)
    (hxr : INT_MIN ≤ x ∧ x ≤ INT_MAX) (hyr : INT_MIN ≤ y ∧ y ≤ INT_MAX)
    (hflip : event.wheel_direction = SDL_MOUSEWHEEL_FLIPPED → x ≠ INT_MIN ∧ y ≠ INT_MIN)
    (ha : -16777216 ≤ a ∧ a ≤ 16777216) (hb : -16777216 ≤ b ∧ b ≤ 16777216) :
    (get_sdl_event E w).1 = PyResult.ok (PyObj.tuple
      [PyObj.int SDL_EVENT_MOUSE_WHEEL,
        if event.wheel_direction = SDL_MOUSEWHEEL_FLIPPED then PyObj.IVector2 (-x) (-y)
        else PyObj.IVector2 x y]) ∧
    push_then_get uninit [PyObj.int SDL_EVENT_MOUSE_WHEEL, flipped, PyObj.int a, PyObj.int b]
      = (PyResult.ok PyObj.None, PyResult.ok (PyObj.tuple
          [PyObj.int SDL_EVENT_MOUSE_WHEEL,
            if is_Py_True flipped then PyObj.IVector2 (-a) (-b) else PyObj.IVector2 a b])) := by
  have h31 : SDL_EVENT_MOUSE_WHEEL < 2147483648 := by decide
  have cast : ∀ (f : F32) (n : Int), f.trunc = some n → INT_MIN ≤ n ∧ n ≤ INT_MAX →
      f32_to_int f = some n := by
    intro f n hf hn
    simp only [f32_to_int, hf, hn, and_self, if_true]
  have same : ∀ n : Int, INT_MIN ≤ n ∧ n ≤ INT_MAX → toCInt (n * 1) = n := by
    intro n hn
    rw [Int.mul_one]
    exact toCInt_of_int n hn.1 hn.2
  have neg : ∀ n : Int, INT_MIN ≤ n ∧ n ≤ INT_MAX → n ≠ INT_MIN → toCInt (n * -1) = -n := by
    intro n hn hmin
    unfold INT_MIN at hn hmin
    unfold INT_MAX at hn
    apply toCInt_neg <;> omega
  constructor
  · rw [get_sdl_event_wheel_case E w event x y hpoll ht hget hcreate (cast _ x hx hxr)
      (cast _ y hy hyr), ht, toCInt_natCast _ h31]
    by_cases hd : event.wheel_direction = SDL_MOUSEWHEEL_FLIPPED
    · simp only [hd, if_true, neg x hxr (hflip hd).1, neg y hyr (hflip hd).2]
    · simp only [hd, if_false, same x hxr, same y hyr]
  · have har : INT_MIN ≤ a ∧ a ≤ INT_MAX := by
      unfold INT_MIN INT_MAX
      omega
    have hbr : INT_MIN ≤ b ∧ b ≤ INT_MAX := by
      unfold INT_MIN INT_MAX
      omega
    have ham : a ≠ INT_MIN := by
      unfold INT_MIN
      omega
    have hbm : b ≠ INT_MIN := by
      unfold INT_MIN
      omega
    rw [push_then_get_of_fill uninit _ _ (by simp)
      ((push_sdl_event_fill_type uninit SDL_EVENT_MOUSE_WHEEL _ h31).trans
        ((push_sdl_event_switch_wheel _ _ rfl).trans
          (push_sdl_event_wheel_ok _ _ flipped a b ha hb)))]
    rw [get_sdl_event_wheel_case fifoEvents ⟨[_], _⟩ _ a b rfl rfl fifoEvents_get_ok
      fifoEvents_create_ok (cast (F32.finite a 0) a (by simp [F32.trunc]) har)
      (cast (F32.finite b 0) b (by simp [F32.trunc]) hbr)]
    simp only [toCInt_natCast _ h31]
    cases is_Py_True flipped
    · have hn : SDL_MOUSEWHEEL_NORMAL ≠ SDL_MOUSEWHEEL_FLIPPED := by decide
      simp only [Bool.false_eq_true, if_false, hn, same a har, same b hbr]
    · simp only [if_true, neg a har ham, neg b hbr hbm]

/-- Witness of C8 (amended): the flipped record with amounts 2.5 and -7, and a
push of (3, -16777216) with `flipped = True`. -/
theorem wheel_delta_normalised_witness :
    ((∀ s, (fifoEvents.EMathApi_Get s).1 = none) ∧
      (∀ s x y, (fifoEvents.IVector2_Create s x y).1 = none) ∧
      (fifoEvents.SDL_PollEvent [flippedWheel]).1 = some flippedWheel ∧
      flippedWheel.type = SDL_EVENT_MOUSE_WHEEL ∧
      flippedWheel.wheel_x.trunc = some 2 ∧ flippedWheel.wheel_y.trunc = some (-7) ∧
      (INT_MIN ≤ (2 : Int) ∧ (2 : Int) ≤ INT_MAX) ∧
      (INT_MIN ≤ (-7 : Int) ∧ (-7 : Int) ≤ INT_MAX) ∧
      (flippedWheel.wheel_direction = SDL_MOUSEWHEEL_FLIPPED →
        (2 : Int) ≠ INT_MIN ∧ (-7 : Int) ≠ INT_MIN) ∧
      ((-16777216 : Int) ≤ 3 ∧ (3 : Int) ≤ 16777216) ∧
      ((-16777216 : Int) ≤ -16777216 ∧ (-16777216 : Int) ≤ 16777216)) ∧
    ((get_sdl_event fifoEvents ⟨[flippedWheel], []⟩).1 = PyResult.ok (PyObj.tuple
      [PyObj.int SDL_EVENT_MOUSE_WHEEL, PyObj.IVector2 (-2) (-(-7))]) ∧
    push_then_get zeroEvent
        [PyObj.int SDL_EVENT_MOUSE_WHEEL, PyObj.bool true, PyObj.int 3, PyObj.int (-16777216)]
      = (PyResult.ok PyObj.None, PyResult.ok (PyObj.tuple
          [PyObj.int SDL_EVENT_MOUSE_WHEEL, PyObj.IVector2 (-3) (-(-16777216))]))) :=
  ⟨⟨fifoEvents_get_ok, fifoEvents_create_ok, rfl, rfl, by decide, by decide, by decide,
      by decide, by decide, by decide, by decide⟩,
    wheel_delta_normalised fifoEvents ⟨[flippedWheel], []⟩ flippedWheel zeroEvent 2 (-7) 3
      (-16777216) (PyObj.bool true) fifoEvents_get_ok fifoEvents_create_ok rfl rfl
      (by decide) (by decide) (by decide) (by decide) (by decide) (by decide) (by decide)⟩

/-! ### UTF-8 -/

theorem utf8_decode_cons (b0 : Nat) (rest : List Nat) :
    utf8_decode (b0 :: rest) =
    if b0 < 0x80 then (utf8_decode rest).map (fun cs => b0 :: cs)
    else if b0 < 0xC0 then none
    else if b0 < 0xE0 then
      match rest with
      | b1 :: rest1 =>
        if utf8_is_cont b1 ∧ 0x80 ≤ (b0 - 0xC0) * 64 + (b1 - 0x80) then
          (utf8_decode rest1).map (fun cs => ((b0 - 0xC0) * 64 + (b1 - 0x80)) :: cs)
        else none
      | [] => none
    else if b0 < 0xF0 then
      match rest with
      | b1 :: b2 :: rest2 =>
        if utf8_is_cont b1 ∧ utf8_is_cont b2 ∧
            0x800 ≤ (b0 - 0xE0) * 4096 + (b1 - 0x80) * 64 + (b2 - 0x80) ∧
            ¬ (0xD800 ≤ (b0 - 0xE0) * 4096 + (b1 - 0x80) * 64 + (b2 - 0x80) ∧
               (b0 - 0xE0) * 4096 + (b1 - 0x80) * 64 + (b2 - 0x80) < 0xE000) then
          (utf8_decode rest2).map
            (fun cs => ((b0 - 0xE0) * 4096 + (b1 - 0x80) * 64 + (b2 - 0x80)) :: cs)
        else none
      | _ => none
    else if b0 < 0xF8 then
      match rest with
      | b1 :: b2 :: b3 :: rest3 =>
        if utf8_is_cont b1 ∧ utf8_is_cont b2 ∧ utf8_is_cont b3 ∧
            0x10000 ≤ (b0 - 0xF0) * 262144 + (b1 - 0x80) * 4096 + (b2 - 0x80) * 64 + (b3 - 0x80) ∧
            (b0 - 0xF0) * 262144 + (b1 - 0x80) * 4096 + (b2 - 0x80) * 64 + (b3 - 0x80)
              < 0x110000 then
          (utf8_decode rest3).map
            (fun cs =>
              ((b0 - 0xF0) * 262144 + (b1 - 0x80) * 4096 + (b2 - 0x80) * 64 + (b3 - 0x80)) :: cs)
        else none
      | _ => none
    else none := by
  rcases rest with _ | ⟨b1, _ | ⟨b2, _ | ⟨b3, rest3⟩⟩⟩ <;> rfl


theorem utf8_decode_encode_char (c : Nat) (b rest : List Nat)
    (h : utf8_encode_char c = some b) :
    utf8_decode (b ++ rest) = (utf8_decode rest).map (fun cs => c :: cs) := by
  unfold utf8_encode_char at h
  split_ifs at h with h1 h2 h3 h4 h5
  · cases h
    rw [List.singleton_append, utf8_decode_cons]
    simp only [h1, if_true]
  · cases h
    have e1 : ¬ (192 + c / 64 < 128) := by omega
    have e2 : ¬ (192 + c / 64 < 192) := by omega
    have e3 : 192 + c / 64 < 224 := by omega
    have e4 : utf8_is_cont (128 + c % 64) := by
      unfold utf8_is_cont
      omega
    have e5 : (192 + c / 64 - 192) * 64 + (128 + c % 64 - 128) = c := by omega
    have e6 : 128 ≤ c := by omega
    rw [List.cons_append, utf8_decode_cons]
    simp only [List.cons_append, List.nil_append, e1, e2, e3, e4, e5, e6, if_true, if_false,
      and_self]
  · cases h
    have e1 : ¬ (224 + c / 4096 < 128) := by omega
    have e2 : ¬ (224 + c / 4096 < 192) := by omega
    have e3 : ¬ (224 + c / 4096 < 224) := by omega
    have e4 : 224 + c / 4096 < 240 := by omega
    have e5 : (224 + c / 4096 - 224) * 4096 + (128 + c / 64 % 64 - 128) * 64 +
        (128 + c % 64 - 128) = c := by omega
    have e6 : utf8_is_cont (128 + c / 64 % 64) := by
      unfold utf8_is_cont
      omega
    have e7 : utf8_is_cont (128 + c % 64) := by
      unfold utf8_is_cont
      omega
    have e8 : 2048 ≤ c := by omega
    rw [List.cons_append, utf8_decode_cons]
    simp only [List.cons_append, List.nil_append, e1, e2, e3, e4, e5, e6, e7, e8, h4, if_true,
      if_false, and_self, not_false_eq_true]
  · cases h
    have e1 : ¬ (240 + c / 262144 < 128) := by omega
    have e2 : ¬ (240 + c / 262144 < 192) := by omega
    have e3 : ¬ (240 + c / 262144 < 224) := by omega
    have e4 : ¬ (240 + c / 262144 < 240) := by omega
    have e4b : 240 + c / 262144 < 248 := by omega
    have e5 : (240 + c / 262144 - 240) * 262144 + (128 + c / 4096 % 64 - 128) * 4096 +
        (128 + c / 64 % 64 - 128) * 64 + (128 + c % 64 - 128) = c := by omega
    have e6 : utf8_is_cont (128 + c / 64 % 64) := by
      unfold utf8_is_cont
      omega
    have e7 : utf8_is_cont (128 + c % 64) := by
      unfold utf8_is_cont
      omega
    have e7b : utf8_is_cont (128 + c / 4096 % 64) := by
      unfold utf8_is_cont
      omega
    have e8 : 65536 ≤ c := by omega
    rw [List.cons_append, utf8_decode_cons]
    simp only [List.cons_append, List.nil_append, e1, e2, e3, e4, e4b, e5, e6, e7, e7b, e8, h5,
      if_true, if_false, and_self]

theorem utf8_decode_encode (s b : List Nat) (h : utf8_encode s = some b) :
    utf8_decode b = some s := by
  induction s generalizing b with
  | nil =>
    simp only [utf8_encode, Option.some.injEq] at h
    subst h
    rfl
  | cons c cs ih =>
    unfold utf8_encode at h
    cases hc : utf8_encode_char c with
    | none => simp [hc] at h
    | some bc =>
      cases hcs : utf8_encode cs with
      | none => simp [hc, hcs] at h
      | some bcs =>
        simp only [hc, hcs, Option.some.injEq] at h
        subst h
        rw [utf8_decode_encode_char c bc bcs hc, ih bcs hcs]
        rfl

theorem utf8_encode_char_scalar (c : Nat) (h1 : c < 0x110000)
    (h2 : ¬ (0xD800 ≤ c ∧ c < 0xE000)) : ∃ b, utf8_encode_char c = some b := by
  unfold utf8_encode_char
  split_ifs <;> exact ⟨_, rfl⟩

theorem utf8_encode_char_nonzero (c : Nat) (b : List Nat) (h : utf8_encode_char c = some b)
    (hc : c ≠ 0) : ∀ x ∈ b, x ≠ 0 := by
  unfold utf8_encode_char at h
  split_ifs at h <;> cases h <;> simp only [List.mem_cons, List.mem_singleton, List.not_mem_nil, or_false] <;> omega

theorem utf8_encode_scalars (s : List Nat)
    (hs : ∀ c ∈ s, c ≠ 0 ∧ c < 0x110000 ∧ ¬ (0xD800 ≤ c ∧ c < 0xE000)) :
    ∃ b, utf8_encode s = some b ∧ ∀ x ∈ b, x ≠ 0 := by
  induction s with
  | nil => exact ⟨[], rfl, by simp⟩
  | cons c cs ih =>
    obtain ⟨bcs, hbcs, hz⟩ := ih (fun c hc => hs c (List.mem_cons_of_mem _ hc))
    obtain ⟨h0, h1, h2⟩ := hs c (List.mem_cons_self _ _)
    obtain ⟨bc, hbc⟩ := utf8_encode_char_scalar c h1 h2
    refine ⟨bc ++ bcs, by simp [utf8_encode, hbc, hbcs], ?_⟩
    intro x hx
    rcases List.mem_append.mp hx with h | h
    · exact utf8_encode_char_nonzero c bc hbc h0 x h
    · exact hz x h

theorem cstring_of_nonzero (b : List Nat) (h : ∀ x ∈ b, x ≠ 0) : cstring b = b := by
  unfold cstring
  rw [List.takeWhile_eq_self_iff]
  intro x hx
  simpa using h x hx

/-! ### C9, C10 -/

/-- C9 as stated fails: the string "a\x00b" comes back from the clipboard as "a",
because the native call receives the buffer as a C string, which ends at the
first zero byte.  (A string with a lone surrogate is not set at all:
`set_clipboard` raises the encoding error.) -/
theorem clipboard_nul_counterexample :
    set_then_get_clipboard [] (PyObj.str [97, 0, 98])
      = (PyResult.ok PyObj.None, PyResult.ok (PyObj.str [97])) ∧
    PyObj.str [97] ≠ PyObj.str [97, 0, 98] ∧
    set_then_get_clipboard [] (PyObj.str [0xD800])
      = (PyResult.raised PyExc.UnicodeEncodeError, PyResult.ok (PyObj.str [])) :=
  ⟨rfl, by simp, rfl⟩

/-- C9, amended: for every Python string `s` without the character U+0000 and
without surrogate code points (the empty string included), with a native
clipboard that stores the C string it is given and returns it unchanged,
`set_clipboard(s)` returns `None` and a following `get_clipboard()` returns a
string equal to `s`. -/
theorem clipboard_roundtrip (init s : List Nat)
    (hs : ∀ c ∈ s, c ≠ 0 ∧ c < 0x110000 ∧ ¬ (0xD800 ≤ c ∧ c < 0xE000)) :
    set_then_get_clipboard init (PyObj.str s)
      = (PyResult.ok PyObj.None, PyResult.ok (PyObj.str s)) := by
  obtain ⟨b, hb, hz⟩ := utf8_encode_scalars s hs
  have hc : cstring b = b := cstring_of_nonzero b hz
  have hd : utf8_decode b = some s := utf8_decode_encode s b hb
  simp [set_then_get_clipboard, set_clipboard, get_clipboard, PyUnicode_AsUTF8AndSize, hb, hc,
    ClipEnv.setClipboardText, ClipEnv.getClipboardText, storingClipboard, World.free,
    PyUnicode_FromString, hd]

/-- Witness of C9 (amended): the string "a€" (U+0061, U+20AC). -/
theorem clipboard_roundtrip_witness :
    (∀ c ∈ [97, 0x20AC], c ≠ 0 ∧ c < 0x110000 ∧ ¬ (0xD800 ≤ c ∧ c < 0xE000)) ∧
    set_then_get_clipboard [1, 2] (PyObj.str [97, 0x20AC])
      = (PyResult.ok PyObj.None, PyResult.ok (PyObj.str [97, 0x20AC])) :=
  ⟨by decide, clipboard_roundtrip [1, 2] [97, 0x20AC] (by decide)⟩

theorem PyCapsule_GetPointer_valid (name : String) (pointer : Nat) :
    PyCapsule_GetPointer (PyObj.capsule name pointer) name = (pointer, none) := by
  simp only [PyCapsule_GetPointer, if_true]

theorem PyCapsule_GetPointer_invalid (obj : PyObj) (name : String)
    (hobj : ∀ pointer, obj ≠ PyObj.capsule name pointer) :
    PyCapsule_GetPointer obj name = (0, some PyExc.ValueError) := by
  cases obj with
  | capsule n p =>
    by_cases hn : n = name
    · exact absurd (by rw [hn]) (hobj p)
    · simp only [PyCapsule_GetPointer, hn, if_false]
  | _ => rfl

/-- C11: called with a valid capsule of the expected kind, each of
`show_sdl_window`, `hide_sdl_window`, `center_sdl_window`,
`disable_sdl_window_text_input` and `delete_sdl_gl_context` makes exactly one
native call, on the wrapped handle, returns `None` when that call reports
success and raises `RuntimeError` when it reports failure (and only then);
each of the four window functions, called with any object that is not a
capsule named `_eplatform.SDL_Window` (a capsule of another name included),
and `delete_sdl_gl_context`, called with any object that is not a capsule
named `_eplatform.SDL_GLContext`, fails with an exception and makes no native
call. -/
theorem native_failure_becomes_error (W : WindowEnv σ) (G : GLEnv σ) (w : World σ)
    (handle : Nat) (not_window not_context : PyObj) (hhandle : handle ≠ 0)
    (hwindow : ∀ pointer, not_window ≠ PyObj.capsule "_eplatform.SDL_Window" pointer)
    (hcontext : ∀ pointer, not_context ≠ PyObj.capsule "_eplatform.SDL_GLContext" pointer) :
    (show_sdl_window W w (PyObj.capsule "_eplatform.SDL_Window" handle) =
        (if (W.SDL_ShowWindow w.st handle).1 then PyResult.ok PyObj.None
          else PyResult.raised PyExc.RuntimeError,
         ⟨(W.SDL_ShowWindow w.st handle).2, w.log ++ [Call.SDL_ShowWindow handle]⟩) ∧
      hide_sdl_window W w (PyObj.capsule "_eplatform.SDL_Window" handle) =
        (if (W.SDL_HideWindow w.st handle).1 then PyResult.ok PyObj.None
          else PyResult.raised PyExc.RuntimeError,
         ⟨(W.SDL_HideWindow w.st handle).2, w.log ++ [Call.SDL_HideWindow handle]⟩) ∧
      center_sdl_window W w (PyObj.capsule "_eplatform.SDL_Window" handle) =
        (if (W.SDL_SetWindowPosition w.st handle SDL_WINDOWPOS_CENTERED
              SDL_WINDOWPOS_CENTERED).1 then PyResult.ok PyObj.None
          else PyResult.raised PyExc.RuntimeError,
         ⟨(W.SDL_SetWindowPosition w.st handle SDL_WINDOWPOS_CENTERED
              SDL_WINDOWPOS_CENTERED).2,
          w.log ++ [Call.SDL_SetWindowPosition handle SDL_WINDOWPOS_CENTERED
              SDL_WINDOWPOS_CENTERED]⟩) ∧
      disable_sdl_window_text_input W w (PyObj.capsule "_eplatform.SDL_Window" handle) =
        (if (W.SDL_StopTextInput w.st handle).1 then PyResult.ok PyObj.None
          else PyResult.raised PyExc.RuntimeError,
         ⟨(W.SDL_StopTextInput w.st handle).2, w.log ++ [Call.SDL_StopTextInput handle]⟩) ∧
      delete_sdl_gl_context G w (PyObj.capsule "_eplatform.SDL_GLContext" handle) =
        (if (G.SDL_GL_DestroyContext w.st handle).1 then PyResult.ok PyObj.None
          else PyResult.raised PyExc.RuntimeError,
         ⟨(G.SDL_GL_DestroyContext w.st handle).2,
          w.log ++ [Call.SDL_GL_DestroyContext handle]⟩)) ∧
    (show_sdl_window W w not_window = (PyResult.raised PyExc.ValueError, w) ∧
      hide_sdl_window W w not_window = (PyResult.raised PyExc.ValueError, w) ∧
      center_sdl_window W w not_window = (PyResult.raised PyExc.ValueError, w) ∧
      disable_sdl_window_text_input W w not_window = (PyResult.raised PyExc.ValueError, w) ∧
      delete_sdl_gl_context G w not_context = (PyResult.raised PyExc.ValueError, w)) := by
  have hbad := PyCapsule_GetPointer_invalid not_window _ hwindow
  have hbadc := PyCapsule_GetPointer_invalid not_context _ hcontext
  refine ⟨⟨?_, ?_, ?_, ?_, ?_⟩, ⟨?_, ?_, ?_, ?_, ?_⟩⟩
  · simp only [show_sdl_window, PyCapsule_GetPointer_valid, hhandle, if_false,
      WindowEnv.showWindow]
    cases (W.SDL_ShowWindow w.st handle).1 <;> rfl
  · simp only [hide_sdl_window, PyCapsule_GetPointer_valid, hhandle, if_false,
      WindowEnv.hideWindow]
    cases (W.SDL_HideWindow w.st handle).1 <;> rfl
  · simp only [center_sdl_window, PyCapsule_GetPointer_valid, hhandle, if_false,
      WindowEnv.setWindowPosition]
    cases (W.SDL_SetWindowPosition w.st handle SDL_WINDOWPOS_CENTERED
      SDL_WINDOWPOS_CENTERED).1 <;> rfl
  · simp only [disable_sdl_window_text_input, PyCapsule_GetPointer_valid, hhandle, if_false,
      WindowEnv.stopTextInput]
    cases (W.SDL_StopTextInput w.st handle).1 <;> rfl
  · simp only [delete_sdl_gl_context, PyCapsule_GetPointer_valid, hhandle, if_false,
      GLEnv.destroyContext]
    cases (G.SDL_GL_DestroyContext w.st handle).1 <;> rfl
  · simp only [show_sdl_window, hbad, if_true, Option.getD_some]
  · simp only [hide_sdl_window, hbad, if_true, Option.getD_some]
  · simp only [center_sdl_window, hbad, if_true, Option.getD_some]
  · simp only [disable_sdl_window_text_input, hbad, if_true, Option.getD_some]
  · simp only [delete_sdl_gl_context, hbadc, if_true, Option.getD_some]

/-- Witness of C11: a native library whose calls all fail and the handle 1;
a context capsule given to `show_sdl_window` and a window capsule given to
`delete_sdl_gl_context` are refused without a native call. -/
theorem native_failure_becomes_error_witness :
    (1 ≠ 0 ∧
      (∀ pointer, PyObj.capsule "_eplatform.SDL_GLContext" 1
        ≠ PyObj.capsule "_eplatform.SDL_Window" pointer) ∧
      (∀ pointer, PyObj.capsule "_eplatform.SDL_Window" 1
        ≠ PyObj.capsule "_eplatform.SDL_GLContext" pointer)) ∧
    show_sdl_window failingWindows ⟨(), []⟩ (PyObj.capsule "_eplatform.SDL_Window" 1) =
      (PyResult.raised PyExc.RuntimeError, ⟨(), [Call.SDL_ShowWindow 1]⟩) ∧
    show_sdl_window failingWindows ⟨(), []⟩ (PyObj.capsule "_eplatform.SDL_GLContext" 1) =
      (PyResult.raised PyExc.ValueError, ⟨(), []⟩) ∧
    delete_sdl_gl_context refusingGL ⟨(), []⟩ (PyObj.capsule "_eplatform.SDL_Window" 1) =
      (PyResult.raised PyExc.ValueError, ⟨(), []⟩) :=
  ⟨⟨by decide, fun _ h => absurd (PyObj.capsule.inj h).1 (by decide),
      fun _ h => absurd (PyObj.capsule.inj h).1 (by decide)⟩,
    (native_failure_becomes_error failingWindows refusingGL ⟨(), []⟩ 1
      (PyObj.capsule "_eplatform.SDL_GLContext" 1) (PyObj.capsule "_eplatform.SDL_Window" 1)
      (by decide) (fun _ h => absurd (PyObj.capsule.inj h).1 (by decide))
      (fun _ h => absurd (PyObj.capsule.inj h).1 (by decide))).1.1,
    (native_failure_becomes_error failingWindows refusingGL ⟨(), []⟩ 1
      (PyObj.capsule "_eplatform.SDL_GLContext" 1) (PyObj.capsule "_eplatform.SDL_Window" 1)
      (by decide) (fun _ h => absurd (PyObj.capsule.inj h).1 (by decide))
      (fun _ h => absurd (PyObj.capsule.inj h).1 (by decide))).2.1,
    (native_failure_becomes_error failingWindows refusingGL ⟨(), []⟩ 1
      (PyObj.capsule "_eplatform.SDL_GLContext" 1) (PyObj.capsule "_eplatform.SDL_Window" 1)
      (by decide) (fun _ h => absurd (PyObj.capsule.inj h).1 (by decide))
      (fun _ h => absurd (PyObj.capsule.inj h).1 (by decide))).2.2.2.2.2⟩

/-! ### C12 -/

/-- C12, the code at the failing input: the entries `show_cursor` and
`hide_cursor` of the method table hold the function pointers `get_clipboard`
and `get_sdl_event` (they are the only entries whose name and function
differ), so calling `show_cursor()` reads the clipboard and calling
`hide_cursor()` polls the event queue; neither makes a cursor call. -/
theorem method_table_cursor_entries :
    module_function "show_cursor" = some CFunction.get_clipboard ∧
    module_function "hide_cursor" = some CFunction.get_sdl_event ∧
    (module_PyMethodDef.filter (fun entry => entry.1 != entry.2.1.name)).map
        (fun entry => entry.1) = ["show_cursor", "hide_cursor"] ∧
    (call_module_noargs quietModule "show_cursor" ⟨(), []⟩).map (fun r => r.2.log)
      = some [Call.SDL_GetClipboardText, Call.SDL_free] ∧
    (call_module_noargs quietModule "hide_cursor" ⟨(), []⟩).map (fun r => r.2.log)
      = some [Call.SDL_PollEvent] ∧
    (show_cursor quietModule.cursor ⟨(), []⟩).2.log = [Call.SDL_ShowCursor] ∧
    (hide_cursor quietModule.cursor ⟨(), []⟩).2.log = [Call.SDL_HideCursor] := by
  refine ⟨by decide, by decide, by decide, by decide, by decide, by decide, by decide⟩

/-! ### C14 -/

theorem gl_error_label_undestroyable (fuel : Nat) (exc : PyExc) (w : World Unit) :
    gl_error_label undestroyableGL 7 fuel exc w = none := by
  induction fuel generalizing exc w with
  | zero => rfl
  | succ n ih =>
    rw [gl_error_label]
    exact ih _ _

/-- C14, the code at the failing input: when the context was created, wrapping
it in a capsule fails and the native destroy call reports failure every time,
`create_sdl_gl_context` does not return for any amount of fuel; each pass
through the `error:` label calls `SDL_GL_DestroyContext` again and jumps back
to the label, so two passes make two destroy calls. -/
theorem create_sdl_gl_context_cleanup_never_returns (fuel : Nat) (exc : PyExc)
    (w : World Unit) :
    create_sdl_gl_context undestroyableGL fuel ⟨(), []⟩
        (PyObj.capsule "_eplatform.SDL_Window" 1) = none ∧
    gl_error_label undestroyableGL 7 (fuel + 2) exc w =
      gl_error_label undestroyableGL 7 fuel PyExc.RuntimeError
        ⟨(), (w.log ++ [Call.SDL_GL_DestroyContext 7]) ++ [Call.SDL_GL_DestroyContext 7]⟩ :=
  ⟨gl_error_label_undestroyable fuel _ _, rfl⟩

/-! ### C13 -/

theorem push_sdl_event_fill_uint32 (uninit : SDL_Event) (t : Nat) (rest : List PyObj)
    (ht : t < 4294967296) :
    push_sdl_event_fill uninit (PyObj.int (t : Int) :: rest) =
      push_sdl_event_switch { uninit with type := t } (PyObj.int (t : Int) :: rest) := by
  have hlong : LONG_MIN ≤ (t : Int) ∧ (t : Int) ≤ LONG_MAX := by
    unfold LONG_MIN LONG_MAX
    omega
  have h32 : toUint32 (t : Int) = t := by
    unfold toUint32
    omega
  simp only [push_sdl_event_fill, List.getD_cons_zero, PyLong_AsLong_checked, PyLong_AsLong,
    hlong, and_self, if_true, h32]

theorem push_sdl_event_of_fill (E : EventEnv σ) (w : World σ) (uninit : SDL_Event)
    (first : PyObj) (rest : List PyObj) :
    push_sdl_event E w uninit (first :: rest) =
      match push_sdl_event_fill uninit (first :: rest) with
      | Except.error exc => (PyResult.raised exc, w)
      | Except.ok event =>
        (if (E.SDL_PushEvent w.st event).1 then PyResult.ok PyObj.None
          else PyResult.raised PyExc.RuntimeError,
         ⟨(E.SDL_PushEvent w.st event).2, w.log ++ [Call.SDL_PushEvent event]⟩) := by
  simp only [push_sdl_event, List.length_cons, Nat.succ_ne_zero, if_false]
  cases push_sdl_event_fill uninit (first :: rest) with
  | error exc => rfl
  | ok event =>
    simp only [EventEnv.pushEvent]
    cases (E.SDL_PushEvent w.st event).1 <;> rfl

theorem push_sdl_event_switch_text (event : SDL_Event) (args : List PyObj)
    (ht : event.type = SDL_EVENT_TEXT_INPUT) :
    push_sdl_event_switch event args = push_sdl_event_text event args := by
  unfold push_sdl_event_switch
  rw [ht]
  rfl

theorem push_sdl_event_switch_other (event : SDL_Event) (args : List PyObj)
    (h1 : event.type ≠ SDL_EVENT_MOUSE_MOTION) (h2 : event.type ≠ SDL_EVENT_MOUSE_WHEEL)
    (h3 : event.type ≠ SDL_EVENT_MOUSE_BUTTON_DOWN)
    (h4 : event.type ≠ SDL_EVENT_MOUSE_BUTTON_UP)
    (h5 : event.type ≠ SDL_EVENT_KEY_DOWN) (h6 : event.type ≠ SDL_EVENT_KEY_UP)
    (h7 : event.type ≠ SDL_EVENT_TEXT_INPUT) (h8 : event.type ≠ SDL_EVENT_WINDOW_RESIZED) :
    push_sdl_event_switch event args = Except.ok event := by
  simp only [push_sdl_event_switch, h1, h2, h3, h4, h5, h6, h7, h8, or_self, if_false]

theorem CHECK_UNEXPECTED_ARG_COUNT_ERROR_fails (expected_count nargs : Nat)
    (h : nargs ≠ expected_count) :
    CHECK_UNEXPECTED_ARG_COUNT_ERROR expected_count nargs = Except.error PyExc.TypeError := by
  simp only [CHECK_UNEXPECTED_ARG_COUNT_ERROR, Ne.symm h, ne_eq, not_false_eq_true, if_true]

/-- C13: `push_sdl_event` raises `TypeError` and makes no native call when it is
called without arguments, or when the first argument is `MOUSE_MOTION` and the
argument count is not 5, `MOUSE_WHEEL` and not 4, `MOUSE_BUTTON_DOWN` or
`MOUSE_BUTTON_UP` and not 3, `KEY_DOWN` or `KEY_UP` and not 4, `TEXT_INPUT` and
not 2, `WINDOW_RESIZED` and not 3; for every other event type it accepts any
argument count of at least 1 and makes one `SDL_PushEvent` call with a record of
that type (returning `None`, or `RuntimeError` when the native push fails). -/
theorem push_sdl_event_checks_arg_count (E : EventEnv σ) (w : World σ) (uninit : SDL_Event)
    (rest : List PyObj) (other : Nat) (hother : other < 4294967296)
    (h1 : other ≠ SDL_EVENT_MOUSE_MOTION) (h2 : other ≠ SDL_EVENT_MOUSE_WHEEL)
    (h3 : other ≠ SDL_EVENT_MOUSE_BUTTON_DOWN) (h4 : other ≠ SDL_EVENT_MOUSE_BUTTON_UP)
    (h5 : other ≠ SDL_EVENT_KEY_DOWN) (h6 : other ≠ SDL_EVENT_KEY_UP)
    (h7 : other ≠ SDL_EVENT_TEXT_INPUT) (h8 : other ≠ SDL_EVENT_WINDOW_RESIZED) :
    push_sdl_event E w uninit [] = (PyResult.raised PyExc.TypeError, w) ∧
    (rest.length + 1 ≠ 5 →
      push_sdl_event E w uninit (PyObj.int SDL_EVENT_MOUSE_MOTION :: rest)
        = (PyResult.raised PyExc.TypeError, w)) ∧
    (rest.length + 1 ≠ 4 →
      push_sdl_event E w uninit (PyObj.int SDL_EVENT_MOUSE_WHEEL :: rest)
        = (PyResult.raised PyExc.TypeError, w)) ∧
    (rest.length + 1 ≠ 3 →
      push_sdl_event E w uninit (PyObj.int SDL_EVENT_MOUSE_BUTTON_DOWN :: rest)
        = (PyResult.raised PyExc.TypeError, w) ∧
      push_sdl_event E w uninit (PyObj.int SDL_EVENT_MOUSE_BUTTON_UP :: rest)
        = (PyResult.raised PyExc.TypeError, w)) ∧
    (rest.length + 1 ≠ 4 →
      push_sdl_event E w uninit (PyObj.int SDL_EVENT_KEY_DOWN :: rest)
        = (PyResult.raised PyExc.TypeError, w) ∧
      push_sdl_event E w uninit (PyObj.int SDL_EVENT_KEY_UP :: rest)
        = (PyResult.raised PyExc.TypeError, w)) ∧
    (rest.length + 1 ≠ 2 →
      push_sdl_event E w uninit (PyObj.int SDL_EVENT_TEXT_INPUT :: rest)
        = (PyResult.raised PyExc.TypeError, w)) ∧
    (rest.length + 1 ≠ 3 →
      push_sdl_event E w uninit (PyObj.int SDL_EVENT_WINDOW_RESIZED :: rest)
        = (PyResult.raised PyExc.TypeError, w)) ∧
    push_sdl_event E w uninit (PyObj.int other :: rest)
      = (if (E.SDL_PushEvent w.st { uninit with type := other }).1 then PyResult.ok PyObj.None
          else PyResult.raised PyExc.RuntimeError,
         ⟨(E.SDL_PushEvent w.st { uninit with type := other }).2,
          w.log ++ [Call.SDL_PushEvent { uninit with type := other }]⟩) := by
  refine ⟨rfl, ?_, ?_, ?_, ?_, ?_, ?_, ?_⟩
  · intro hn
    rw [push_sdl_event_of_fill, push_sdl_event_fill_uint32 _ _ _ (by decide),
      push_sdl_event_switch_motion _ _ rfl]
    simp only [push_sdl_event_motion, List.length_cons,
      CHECK_UNEXPECTED_ARG_COUNT_ERROR_fails 5 _ hn, bind, Except.bind]
  · intro hn
    rw [push_sdl_event_of_fill, push_sdl_event_fill_uint32 _ _ _ (by decide),
      push_sdl_event_switch_wheel _ _ rfl]
    simp only [push_sdl_event_wheel, List.length_cons,
      CHECK_UNEXPECTED_ARG_COUNT_ERROR_fails 4 _ hn, bind, Except.bind]
  · intro hn
    constructor
    · rw [push_sdl_event_of_fill, push_sdl_event_fill_uint32 _ _ _ (by decide),
        push_sdl_event_switch_button _ _ (Or.inl rfl)]
      simp only [push_sdl_event_button, List.length_cons,
        CHECK_UNEXPECTED_ARG_COUNT_ERROR_fails 3 _ hn, bind, Except.bind]
    · rw [push_sdl_event_of_fill, push_sdl_event_fill_uint32 _ _ _ (by decide),
        push_sdl_event_switch_button _ _ (Or.inr rfl)]
      simp only [push_sdl_event_button, List.length_cons,
        CHECK_UNEXPECTED_ARG_COUNT_ERROR_fails 3 _ hn, bind, Except.bind]
  · intro hn
    constructor
    · rw [push_sdl_event_of_fill, push_sdl_event_fill_uint32 _ _ _ (by decide),
        push_sdl_event_switch_key _ _ (Or.inl rfl)]
      simp only [push_sdl_event_key, List.length_cons,
        CHECK_UNEXPECTED_ARG_COUNT_ERROR_fails 4 _ hn, bind, Except.bind]
    · rw [push_sdl_event_of_fill, push_sdl_event_fill_uint32 _ _ _ (by decide),
        push_sdl_event_switch_key _ _ (Or.inr rfl)]
      simp only [push_sdl_event_key, List.length_cons,
        CHECK_UNEXPECTED_ARG_COUNT_ERROR_fails 4 _ hn, bind, Except.bind]
  · intro hn
    rw [push_sdl_event_of_fill, push_sdl_event_fill_uint32 _ _ _ (by decide),
      push_sdl_event_switch_text _ _ rfl]
    simp only [push_sdl_event_text, List.length_cons,
      CHECK_UNEXPECTED_ARG_COUNT_ERROR_fails 2 _ hn, bind, Except.bind]
  · intro hn
    rw [push_sdl_event_of_fill, push_sdl_event_fill_uint32 _ _ _ (by decide),
      push_sdl_event_switch_resized _ _ rfl]
    simp only [push_sdl_event_resized, List.length_cons,
      CHECK_UNEXPECTED_ARG_COUNT_ERROR_fails 3 _ hn, bind, Except.bind]
  · rw [push_sdl_event_of_fill, push_sdl_event_fill_uint32 _ _ _ hother,
      push_sdl_event_switch_other _ _ h1 h2 h3 h4 h5 h6 h7 h8]

/-- Witness of C13: on the first-in-first-out queue, a mouse-motion push with
two arguments is refused, and a push of the event type 0x100 with two
arguments puts a record of that type on the queue. -/
theorem push_sdl_event_checks_arg_count_witness :
    ((256 : Nat) < 4294967296 ∧ 256 ≠ SDL_EVENT_MOUSE_MOTION ∧ 256 ≠ SDL_EVENT_MOUSE_WHEEL ∧
      256 ≠ SDL_EVENT_MOUSE_BUTTON_DOWN ∧ 256 ≠ SDL_EVENT_MOUSE_BUTTON_UP ∧
      256 ≠ SDL_EVENT_KEY_DOWN ∧ 256 ≠ SDL_EVENT_KEY_UP ∧ 256 ≠ SDL_EVENT_TEXT_INPUT ∧
      256 ≠ SDL_EVENT_WINDOW_RESIZED ∧ [PyObj.None].length + 1 ≠ 5) ∧
    push_sdl_event fifoEvents ⟨[], []⟩ zeroEvent
        [PyObj.int SDL_EVENT_MOUSE_MOTION, PyObj.None]
      = (PyResult.raised PyExc.TypeError, ⟨[], []⟩) ∧
    push_sdl_event fifoEvents ⟨[], []⟩ zeroEvent [PyObj.int ((256 : Nat) : Int), PyObj.None]
      = (PyResult.ok PyObj.None,
         ⟨[{ zeroEvent with type := 256 }],
          [Call.SDL_PushEvent { zeroEvent with type := 256 }]⟩) :=
  ⟨by decide,
    (push_sdl_event_checks_arg_count fifoEvents ⟨[], []⟩ zeroEvent [PyObj.None] 256
      (by decide) (by decide) (by decide) (by decide) (by decide) (by decide) (by decide)
      (by decide) (by decide)).2.1 (by decide),
    (push_sdl_event_checks_arg_count fifoEvents ⟨[], []⟩ zeroEvent [PyObj.None] 256
      (by decide) (by decide) (by decide) (by decide) (by decide) (by decide) (by decide)
      (by decide) (by decide)).2.2.2.2.2.2.2⟩

/-! ### C15 -/

theorem set_sdl_window_size_error_log (W : WindowEnv σ) (w : World σ) (emath_api : Bool)
    (exc : PyExc) :
    (set_sdl_window_size_error W w emath_api exc).2.log =
      w.log ++ (if emath_api then [Call.EMathApi_Release] else []) := by
  cases emath_api
  · simp [set_sdl_window_size_error]
  · simp [set_sdl_window_size_error, WindowEnv.emathRelease]

theorem set_sdl_window_size_balanced (W : WindowEnv σ) (w : World σ) (args : List PyObj) :
    emath_balanced (W.EMathApi_Get w.st).1.isNone
      (emath_calls ((set_sdl_window_size W w args).2.log.drop w.log.length)) := by
  unfold set_sdl_window_size
  by_cases h2 : 2 ≠ args.length
  · rw [if_pos h2, set_sdl_window_size_error_log]
    left
    simp [emath_calls]
  · rw [if_neg h2]
    by_cases hp : (PyCapsule_GetPointer (args.getD 0 PyObj.None) "_eplatform.SDL_Window").1 = 0
    · simp only [hp, if_true, set_sdl_window_size_error_log]
      left
      simp [emath_calls]
    · simp only [hp, if_false]
      cases hget : (W.EMathApi_Get w.st).1 with
      | some exc =>
        simp only [WindowEnv.emathGet, hget, set_sdl_window_size_error_log]
        right
        left
        simp [emath_calls]
      | none =>
        simp only [WindowEnv.emathGet, hget]
        right
        right
        cases hsize : (IVector2_GetValuePointer (args.getD 1 PyObj.None)).2 with
        | some exc =>
          simp only [set_sdl_window_size_error_log]
          simp [emath_calls]
        | none =>
          simp only []
          split_ifs
          · simp only [set_sdl_window_size_error_log, WindowEnv.setWindowSize,
              WindowEnv.emathRelease]
            simp [emath_calls]
          · simp only [WindowEnv.setWindowSize, WindowEnv.emathRelease]
            simp [emath_calls]

theorem get_sdl_event_error_log (E : EventEnv σ) (w : World σ) (emath_api : Bool)
    (exc : PyExc) :
    (get_sdl_event_error E w emath_api exc).2.log =
      w.log ++ (if emath_api then [Call.EMathApi_Release] else []) := by
  cases emath_api
  · simp [get_sdl_event_error]
  · simp [get_sdl_event_error, EventEnv.emathRelease]

theorem get_sdl_event_motion_balanced (E : EventEnv σ) (w : World σ) (event : SDL_Event) :
    (get_sdl_event_motion E w event).1 = PyResult.undefined ∨
    ∃ new, (get_sdl_event_motion E w event).2.log = w.log ++ new ∧
      emath_balanced (E.EMathApi_Get w.st).1.isNone (emath_calls new) := by
  unfold get_sdl_event_motion
  cases hget : (E.EMathApi_Get w.st).1 with
  | some exc =>
    right
    simp only [EventEnv.emathGet, hget, get_sdl_event_error_log]
    exact ⟨[Call.EMathApi_Get], by simp, Or.inr (Or.inl ⟨by simp [emath_calls], rfl⟩)⟩
  | none =>
    simp only [EventEnv.emathGet, hget]
    cases f32_to_int event.motion_x with
    | none => exact Or.inl rfl
    | some px =>
      cases f32_to_int event.motion_y with
      | none => exact Or.inl rfl
      | some py =>
        cases hc1 : (E.IVector2_Create (E.EMathApi_Get w.st).2 px py).1 with
        | some exc =>
          right
          simp only [EventEnv.ivector2Create, hc1, get_sdl_event_error_log]
          exact ⟨[Call.EMathApi_Get, Call.IVector2_Create px py, Call.EMathApi_Release],
            by simp, Or.inr (Or.inr ⟨by simp [emath_calls], rfl⟩)⟩
        | none =>
          simp only [EventEnv.ivector2Create, hc1]
          cases f32_to_int event.motion_xrel with
          | none => exact Or.inl rfl
          | some dx =>
            cases f32_to_int event.motion_yrel with
            | none => exact Or.inl rfl
            | some dy =>
              right
              cases hc2 : (E.IVector2_Create
                  (E.IVector2_Create (E.EMathApi_Get w.st).2 px py).2 dx dy).1 with
              | some exc =>
                simp only [hc2, get_sdl_event_error_log]
                exact ⟨[Call.EMathApi_Get, Call.IVector2_Create px py,
                    Call.IVector2_Create dx dy, Call.EMathApi_Release],
                  by simp, Or.inr (Or.inr ⟨by simp [emath_calls], rfl⟩)⟩
              | none =>
                simp only [hc2, EventEnv.emathRelease]
                exact ⟨[Call.EMathApi_Get, Call.IVector2_Create px py,
                    Call.IVector2_Create dx dy, Call.EMathApi_Release],
                  by simp, Or.inr (Or.inr ⟨by simp [emath_calls], rfl⟩)⟩

theorem get_sdl_event_wheel_balanced (E : EventEnv σ) (w : World σ) (event : SDL_Event) :
    (get_sdl_event_wheel E w event).1 = PyResult.undefined ∨
    ∃ new, (get_sdl_event_wheel E w event).2.log = w.log ++ new ∧
      emath_balanced (E.EMathApi_Get w.st).1.isNone (emath_calls new) := by
  unfold get_sdl_event_wheel
  cases hget : (E.EMathApi_Get w.st).1 with
  | some exc =>
    right
    simp only [EventEnv.emathGet, hget, get_sdl_event_error_log]
    exact ⟨[Call.EMathApi_Get], by simp, Or.inr (Or.inl ⟨by simp [emath_calls], rfl⟩)⟩
  | none =>
    simp only [EventEnv.emathGet, hget]
    cases f32_to_int event.wheel_x with
    | none => exact Or.inl rfl
    | some x =>
      cases f32_to_int event.wheel_y with
      | none => exact Or.inl rfl
      | some y =>
        right
        simp only [EventEnv.ivector2Create]
        split
        · simp only [get_sdl_event_error_log]
          refine ⟨_, by simp only [List.append_assoc]; rfl, Or.inr (Or.inr ⟨?_, rfl⟩)⟩
          simp [emath_calls]
        · simp only [EventEnv.emathRelease]
          refine ⟨_, by simp only [List.append_assoc]; rfl, Or.inr (Or.inr ⟨?_, rfl⟩)⟩
          simp [emath_calls]

theorem get_sdl_event_resized_balanced (E : EventEnv σ) (w : World σ) (event : SDL_Event) :
    ∃ new, (get_sdl_event_resized E w event).2.log = w.log ++ new ∧
      emath_balanced (E.EMathApi_Get w.st).1.isNone (emath_calls new) := by
  unfold get_sdl_event_resized
  cases hget : (E.EMathApi_Get w.st).1 with
  | some exc =>
    simp only [EventEnv.emathGet, hget, get_sdl_event_error_log]
    exact ⟨[Call.EMathApi_Get], by simp, Or.inr (Or.inl ⟨by simp [emath_calls], rfl⟩)⟩
  | none =>
    simp only [EventEnv.emathGet, hget, EventEnv.ivector2Create]
    split
    · simp only [get_sdl_event_error_log]
      refine ⟨_, by simp only [List.append_assoc]; rfl, Or.inr (Or.inr ⟨?_, rfl⟩)⟩
      simp [emath_calls]
    · simp only [EventEnv.emathRelease]
      refine ⟨_, by simp only [List.append_assoc]; rfl, Or.inr (Or.inr ⟨?_, rfl⟩)⟩
      simp [emath_calls]

theorem emath_calls_after_poll (log new : List Call) :
    emath_calls (((log ++ [Call.SDL_PollEvent]) ++ new).drop log.length) = emath_calls new := by
  rw [List.append_assoc, List.drop_left]
  simp [emath_calls]

theorem get_sdl_event_balanced (E : EventEnv σ) (w : World σ) :
    (get_sdl_event E w).1 = PyResult.undefined ∨
    emath_balanced (E.EMathApi_Get (E.SDL_PollEvent w.st).2).1.isNone
      (emath_calls ((get_sdl_event E w).2.log.drop w.log.length)) := by
  have quiet : emath_balanced (E.EMathApi_Get (E.SDL_PollEvent w.st).2).1.isNone
      (emath_calls ((w.log ++ [Call.SDL_PollEvent]).drop w.log.length)) := by
    left
    simp [emath_calls]
  unfold get_sdl_event
  cases hpoll : (E.SDL_PollEvent w.st).1 with
  | none =>
    simp only [EventEnv.pollEvent, hpoll]
    exact Or.inr quiet
  | some event =>
    simp only [EventEnv.pollEvent, hpoll]
    split_ifs
    · rcases get_sdl_event_motion_balanced E
        ⟨(E.SDL_PollEvent w.st).2, w.log ++ [Call.SDL_PollEvent]⟩ event with h | ⟨new, hlog, hb⟩
      · exact Or.inl h
      · right
        rw [hlog, emath_calls_after_poll]
        exact hb
    · rcases get_sdl_event_wheel_balanced E
        ⟨(E.SDL_PollEvent w.st).2, w.log ++ [Call.SDL_PollEvent]⟩ event with h | ⟨new, hlog, hb⟩
      · exact Or.inl h
      · right
        rw [hlog, emath_calls_after_poll]
        exact hb
    · exact Or.inr quiet
    · exact Or.inr quiet
    · right
      split
      · exact quiet
      · exact quiet
    · obtain ⟨new, hlog, hb⟩ := get_sdl_event_resized_balanced E
        ⟨(E.SDL_PollEvent w.st).2, w.log ++ [Call.SDL_PollEvent]⟩ event
      right
      rw [hlog, emath_calls_after_poll]
      exact hb
    · exact Or.inr quiet

/-- C15: in `set_sdl_window_size`, for every argument list and every behaviour
of the native library and the vector-math API, and in `get_sdl_event`, for
every such behaviour on which the function's result is defined, the
acquisitions and releases of the vector-math API that the call adds to the log
are balanced: there is none, or an `EMathApi_Get` that failed and no release,
or an `EMathApi_Get` that succeeded followed by exactly one
`EMathApi_Release`. -/
theorem emath_api_balanced (W : WindowEnv σ) (E : EventEnv σ) (w : World σ)
    (args : List PyObj) (hdefined : (get_sdl_event E w).1 ≠ PyResult.undefined) :
    emath_balanced (W.EMathApi_Get w.st).1.isNone
      (emath_calls ((set_sdl_window_size W w args).2.log.drop w.log.length)) ∧
    emath_balanced (E.EMathApi_Get (E.SDL_PollEvent w.st).2).1.isNone
      (emath_calls ((get_sdl_event E w).2.log.drop w.log.length)) :=
  ⟨set_sdl_window_size_balanced W w args,
    (get_sdl_event_balanced E w).resolve_left hdefined⟩

/-- Witness of C15: a resize whose native call fails, and the poll of a
window-resized record; each acquires the API once and releases it once. -/
theorem emath_api_balanced_witness :
    (get_sdl_event resizingEvents ⟨(), []⟩).1 ≠ PyResult.undefined ∧
    emath_balanced true
      (emath_calls ((set_sdl_window_size failingWindows ⟨(), []⟩
        [PyObj.capsule "_eplatform.SDL_Window" 1, PyObj.IVector2 3 4]).2.log.drop 0)) ∧
    emath_balanced true
      (emath_calls ((get_sdl_event resizingEvents ⟨(), []⟩).2.log.drop 0)) :=
  ⟨fun h => PyResult.noConfusion h,
    emath_api_balanced failingWindows resizingEvents ⟨(), []⟩
      [PyObj.capsule "_eplatform.SDL_Window" 1, PyObj.IVector2 3 4]
      (fun h => PyResult.noConfusion h)⟩

end EPlatform
